import Mathlib

/-!
# Verification of amazon-bedrock-agentcore-samples Lambda glue code

Shallow embedding, in Lean 4, of the Python Lambda handlers of the repository
`amazon-bedrock-agentcore-samples`, together with proofs of the frozen claims
about them.  The embedded components are:

* the SQL-injection prevention interceptor
  (`01-tutorials/02-AgentCore-gateway/15-prevent-sql-injection/src/lambda/lambda_function.py`),
* the prompt-injection prevention interceptor
  (`01-tutorials/02-AgentCore-gateway/15-prevent-prompt-injection/src/lambda/lambda_function.py`),
* the OAuth/MCP proxy
  (`.../04-enterprise-mcp-demo/cdk/lambda/mcp_proxy_lambda.py`),
* the CloudFormation custom-resource policy-engine handler
  (`.../04-enterprise-mcp-demo/cdk/lambda/agentcore-policy-engine/agentcore_policy_engine.py`).

Python JSON-like values are modelled by the inductive type `JVal`; Python
exceptions are modelled with `Except String`; calls to external AWS services
are modelled by explicit oracle parameters.  Character-level operations model
the ASCII fragment that is actually exercised by these handlers.
-/

/-- A JSON-like Python value, as deserialized from a Lambda event.
Numbers are modelled as integers (the handlers never do numeric computation
on event fields). -/
inductive JVal where
  | null : JVal
  | bool : Bool → JVal
  | num : Int → JVal
  | str : String → JVal
  | arr : List JVal → JVal
  | obj : List (String × JVal) → JVal

/-- Python `d.get(k, default)`: succeeds on dicts, raises `AttributeError`
on any non-dict value (which is what `x.get(...)` does in Python when `x`
is not a dict). -/
def pyDictGet (v : JVal) (k : String) (d : JVal) : Except String JVal :=
  match v with
  | .obj kvs => .ok ((kvs.lookup k).getD d)
  | _ => .error "AttributeError: object has no attribute get"

/-- Python `v == "lit"` for a JSON value against a string literal: true
exactly when `v` is that string (values of different types compare unequal). -/
def jIsStr (v : JVal) (s : String) : Bool :=
  match v with
  | .str t => t = s
  | _ => false

/-- Python truthiness of a JSON-like value (`if not x: ...`). -/
def jFalsy : JVal → Bool
  | .null => true
  | .bool b => !b
  | .num n => n = 0
  | .str s => s = ""
  | .arr xs => xs.isEmpty
  | .obj kvs => kvs.isEmpty

namespace SqlLambda

/-!
## SQL-injection prevention interceptor

Embedding of `15-prevent-sql-injection/src/lambda/lambda_function.py`.

The module-level constants `STRICT_MODE` and `MAX_STRING_LENGTH` are never
mutated by the Python module; the handler is parameterised by them so that
statelessness across invocations can be stated (claim C10), and the
module-level values are fixed below exactly as in the source.
-/

/-- `STRICT_MODE = False` (source line 18). -/
def STRICT_MODE : Bool := false

/-- `MAX_STRING_LENGTH = 10000` (source line 19). -/
def MAX_STRING_LENGTH : Nat := 10000

/-- Characters matched by Python's `\s` on the ASCII fragment these
interceptors process: space, tab, newline, vertical tab, form feed,
carriage return. -/
def isSpaceChar (c : Char) : Bool :=
  c = ' ' || c = '\t' || c = '\n' || c = '\x0b' || c = '\x0c' || c = '\r'

/-- Characters matched by Python's `\w` (ASCII fragment): letters, digits,
underscore.  Used for `\b` word boundaries. -/
def isWordChar (c : Char) : Bool :=
  c.isAlpha || c.isDigit || c = '_'

/-- One token of a compiled SQL-injection pattern.  The eleven patterns of
`SQL_INJECTION_PATTERNS` (source lines 21-33) use only literal text, the
word boundary `\b`, and the whitespace class `[\s\n]` under `*` or `+`;
regex alternation `(A|B|...)` is represented by a list of alternative token
sequences at the pattern level (search of `x(A|B)y` equals search of `xAy`
or of `xBy`). -/
inductive SqlTok where
  | lit : List Char → SqlTok
  | wb : SqlTok
  | wsStar : SqlTok
  | wsPlus : SqlTok

/-- Whether the boundary between the previous character (`none` at the start
of the string) and the next character (`none` at the end) is a `\b` word
boundary. -/
def atWordBoundary (prev : Option Char) (cs : List Char) : Bool :=
  (match prev with | some c => isWordChar c | none => false)
    != (match cs.head? with | some c => isWordChar c | none => false)

/-- Consume a literal (case-insensitively, as the patterns are compiled
with `re.IGNORECASE`); on success return the remaining input and the new
previous character. -/
def litMatch : List Char → List Char → Option Char → Option (List Char × Option Char)
  | [], cs, prev => some (cs, prev)
  | _ :: _, [], _ => none
  | d :: ds, c :: cs, _ =>
      if c.toLower == d.toLower then litMatch ds cs (some c) else none

/-- Consume the maximal run of whitespace, tracking the previous
character. -/
def skipWs (prev : Option Char) : List Char → Option Char × List Char
  | [] => (prev, [])
  | c :: cs => if isSpaceChar c then skipWs (some c) cs else (prev, c :: cs)

/-- Match a token sequence against `cs` starting at the current position,
with `prev` the character just before the position.  Whitespace repetition
is consumed greedily: in the eleven patterns of `COMPILED_PATTERNS` the
token after `[\s\n]*`/`[\s\n]+` is always a word boundary followed by a
letter, or a literal `1`, `=` or `(` — never something that can match a
whitespace character — so greedy consumption coincides with the
backtracking semantics of `re.search`. -/
def matchToks : List SqlTok → Option Char → List Char → Bool
  | [], _, _ => true
  | .lit l :: ts, prev, cs =>
      match litMatch l cs prev with
      | some (cs', prev') => matchToks ts prev' cs'
      | none => false
  | .wb :: ts, prev, cs => atWordBoundary prev cs && matchToks ts prev cs
  | .wsStar :: ts, prev, cs =>
      match skipWs prev cs with
      | (prev', cs') => matchToks ts prev' cs'
  | .wsPlus :: ts, _, cs =>
      match cs with
      | c :: cs' =>
          isSpaceChar c &&
            (match skipWs (some c) cs' with
             | (prev', cs'') => matchToks ts prev' cs'')
      | [] => false

/-- A compiled pattern: a disjunction of token sequences (one sequence per
branch of the top-level alternation). -/
abbrev SqlPat := List (List SqlTok)

/-- `pattern.search(s)` anchored at one position: some alternative matches
here. -/
def matchAtPos (p : SqlPat) (prev : Option Char) (cs : List Char) : Bool :=
  p.any fun ts => matchToks ts prev cs

/-- `pattern.search(s)` from the current position onwards. -/
def searchFrom (p : SqlPat) (prev : Option Char) (cs : List Char) : Bool :=
  matchAtPos p prev cs ||
    (match cs with
     | c :: cs' => searchFrom p (some c) cs'
     | [] => false)

/-- `pattern.search(s)`: the pattern matches at some position of `cs`. -/
def reSearch (p : SqlPat) (cs : List Char) : Bool :=
  searchFrom p none cs

/-- A keyword bracketed by word boundaries: `\bKW\b`. -/
def kw (s : String) : List SqlTok := [.wb, .lit s.data, .wb]

/-- The keywords of the `STACKED_QUERY` pattern alternation. -/
def stackedKeywords : List String :=
  ["SELECT", "INSERT", "UPDATE", "DELETE", "DROP", "CREATE", "ALTER",
   "TRUNCATE", "EXEC", "EXECUTE"]

/-- `COMPILED_PATTERNS` (source lines 21-36): the eleven SQL-injection
patterns, each with its rule id, compiled with `re.IGNORECASE`. -/
def COMPILED_PATTERNS : List (SqlPat × String) :=
  [ (stackedKeywords.map fun k => [SqlTok.lit [';'], SqlTok.wsStar] ++ kw k,
      "STACKED_QUERY"),
    ([[SqlTok.lit ['-', '-']]], "SQL_COMMENT_DASH"),
    ([[SqlTok.lit ['/', '*']]], "SQL_COMMENT_OPEN"),
    ([[SqlTok.lit ['*', '/']]], "SQL_COMMENT_CLOSE"),
    ([kw "UNION" ++ [SqlTok.wsPlus] ++ kw "SELECT"], "UNION_SELECT"),
    ([kw "UNION" ++ [SqlTok.wsPlus] ++ kw "ALL" ++ [SqlTok.wsPlus] ++ kw "SELECT"],
      "UNION_ALL_SELECT"),
    ([kw "OR" ++ [SqlTok.wsPlus, SqlTok.lit ['1'], SqlTok.wsStar,
        SqlTok.lit ['='], SqlTok.wsStar, SqlTok.lit ['1']]], "TAUTOLOGY_OR"),
    ([kw "AND" ++ [SqlTok.wsPlus, SqlTok.lit ['1'], SqlTok.wsStar,
        SqlTok.lit ['='], SqlTok.wsStar, SqlTok.lit ['1']]], "TAUTOLOGY_AND"),
    ([kw "SLEEP" ++ [SqlTok.wsStar, SqlTok.lit ['(']]], "TIME_SLEEP"),
    ([kw "WAITFOR" ++ [SqlTok.wsPlus] ++ kw "DELAY"], "TIME_WAITFOR"),
    ([kw "BENCHMARK" ++ [SqlTok.wsStar, SqlTok.lit ['(']]], "TIME_BENCHMARK") ]

/-- `re.sub(r'\s+', ' ', s)` worker: the flag records whether the current
character continues a whitespace run whose single replacement space has
already been emitted. -/
def collapseWsAux : Bool → List Char → List Char
  | _, [] => []
  | inWs, c :: cs =>
      if isSpaceChar c then
        if inWs then collapseWsAux true cs else ' ' :: collapseWsAux true cs
      else c :: collapseWsAux false cs

/-- `re.sub(r'\s+', ' ', s)`: collapse each maximal whitespace run to a
single space. -/
def collapseWs (l : List Char) : List Char := collapseWsAux false l

/-- `normalize_string` (source lines 39-41): collapse whitespace, lowercase. -/
def normalize_string (s : List Char) : List Char :=
  (collapseWs s).map Char.toLower

/-- `extract_all_strings` (source lines 48-62): every string value nested in
a JSON-like value, with its path. -/
def extract_all_strings : JVal → String → List (String × String)
  | .obj kvs, path => extractObj kvs path
  | .arr items, path => extractArr items path 0
  | .str s, path => [(path, s)]
  | _, _ => []
where
  /-- Fields of a dict, in order. -/
  extractObj : List (String × JVal) → String → List (String × String)
    | [], _ => []
    | (k, v) :: rest, path =>
        extract_all_strings v (if path = "" then k else path ++ "." ++ k) ++
          extractObj rest path
  /-- Elements of a list, with bracketed indices. -/
  extractArr : List JVal → String → Nat → List (String × String)
    | [], _, _ => []
    | v :: rest, path, idx =>
        extract_all_strings v (path ++ "[" ++ toString idx ++ "]") ++
          extractArr rest path (idx + 1)

/-- `detect_sql_injection` (source lines 65-78), parameterised by the
`MAX_STRING_LENGTH` module constant: returns
`(is_malicious, rule_id, category)`. -/
def detect_sql_injection (maxLen : Nat) (value : String) : Bool × String × String :=
  if value = "" then (false, "", "")
  else if value.length > maxLen then (true, "STRING_TOO_LONG", "INVALID_INPUT")
  else
    match COMPILED_PATTERNS.find? (fun p => reSearch p.1 (normalize_string value.data)) with
    | some p => (true, p.2, "SQL_INJECTION_DETECTED")
    | none => (false, "", "")

/-- `analyze_arguments_for_sql_injection` (source lines 81-95): returns
`(is_safe, rule_id, category)`. -/
def analyze_arguments_for_sql_injection (maxLen : Nat) (arguments : JVal) :
    Bool × String × String :=
  let all_strings := extract_all_strings arguments ""
  if all_strings.isEmpty then (true, "", "")
  else
    match all_strings.find? (fun fv => (detect_sql_injection maxLen fv.2).1) with
    | some fv =>
        let r := detect_sql_injection maxLen fv.2
        (false, r.2.1, r.2.2)
    | none => (true, "", "")

/-- `create_blocked_response` (source lines 98-126). -/
def create_blocked_response (category : String) (request_id : JVal) : JVal :=
  .obj [("interceptorOutputVersion", .str "1.0"),
        ("mcp", .obj [("transformedGatewayResponse", .obj
          [("statusCode", .num 403),
           ("headers", .obj [("Content-Type", .str "application/json"),
                             ("X-Security-Status", .str "BLOCKED")]),
           ("body", .obj [("jsonrpc", .str "2.0"),
                          ("id", request_id),
                          ("error", .obj
                            [("code", .num (-32000)),
                             ("message", .str "Request blocked by security policy"),
                             ("data", .obj
                               [("category", .str category),
                                ("security_policy", .str "sql_injection_prevention")])])])])])]

/-- The pass-through response of `lambda_handler` (source lines 142-150 and
168-176): original headers and body wrapped as `transformedGatewayRequest`. -/
def passthrough_response (headers body : JVal) : JVal :=
  .obj [("interceptorOutputVersion", .str "1.0"),
        ("mcp", .obj [("transformedGatewayRequest", .obj
          [("headers", headers), ("body", body)])])]

/-- Python `'k' in d` for a JSON-like value: key membership for dicts,
substring for strings, element membership for lists; raises `TypeError`
otherwise.  (Substring and element membership are modelled exactly as far
as the handler can reach them, i.e. not at all when `STRICT_MODE` is
false.) -/
def pyContains (k : String) (v : JVal) : Except String Bool :=
  match v with
  | .obj kvs => .ok (kvs.any fun kv => kv.1 = k)
  | .arr xs => .ok (xs.any fun x => jIsStr x k)
  | .str s => .ok (strContains s k)
  | _ => .error "TypeError: argument is not iterable"
where
  /-- Substring test, used for Python `in` on strings. -/
  strContains (s sub : String) : Bool :=
    (List.range (s.length + 1)).any fun i => (s.data.drop i).take sub.length = sub.data

/-- The analysis tail of the `try` block (source lines 158-179): the
`STRICT_MODE` check followed by the SQL-injection analysis of the
arguments. -/
def handlerAnalyze (strictMode : Bool) (maxLen : Nat)
    (gateway_request request_body request_id arguments : JVal) : Except String JVal :=
  let afterStrict : Except String (Option JVal) :=
    if strictMode then
      match pyContains "query" arguments with
      | .error e => .error e
      | .ok hasQuery =>
        match pyContains "sql" arguments with
        | .error e => .error e
        | .ok hasSql =>
          if hasQuery || hasSql then
            .ok (some (create_blocked_response "RAW_SQL_NOT_ALLOWED" request_id))
          else .ok none
    else .ok none
  match afterStrict with
  | .error e => .error e
  | .ok (some blocked) => .ok blocked
  | .ok none =>
    let r := analyze_arguments_for_sql_injection maxLen arguments
    if r.1 then
      match pyDictGet gateway_request "headers" (.obj []) with
      | .error e => .error e
      | .ok headers => .ok (passthrough_response headers request_body)
    else .ok (create_blocked_response r.2.2 request_id)

/-- The body of the `try` block of `lambda_handler` (source lines 131-179),
starting after `request_body` has been bound.  An `Except.error` models a
Python exception escaping the `try` block. -/
def handlerCore (strictMode : Bool) (maxLen : Nat)
    (gateway_request request_body : JVal) : Except String JVal :=
  match pyDictGet request_body "method" (.str "") with
  | .error e => .error e
  | .ok method =>
    match pyDictGet request_body "id" (.str "unknown") with
    | .error e => .error e
    | .ok request_id =>
      if !jIsStr method "tools/call" then
        match pyDictGet gateway_request "headers" (.obj []) with
        | .error e => .error e
        | .ok headers => .ok (passthrough_response headers request_body)
      else
        match pyDictGet request_body "params" (.obj []) with
        | .error e => .error e
        | .ok params =>
          match pyDictGet params "name" (.str "") with
          | .error e => .error e
          | .ok _tool_name =>
            match pyDictGet params "arguments" (.obj []) with
            | .error e => .error e
            | .ok arguments =>
              handlerAnalyze strictMode maxLen gateway_request request_body
                request_id arguments

/-- `lambda_handler` (source lines 129-183), parameterised by the module
constants.  The `except` block (lines 181-183) itself evaluates
`request_body.get('id', 'unknown')`; when the exception was raised before
`request_body` was bound to a dict, that expression raises
(`UnboundLocalError` or `AttributeError`) and the exception propagates out
of the handler, modelled by `Except.error`. -/
def lambda_handler_with (strictMode : Bool) (maxLen : Nat) (event : JVal) :
    Except String JVal :=
  match pyDictGet event "mcp" (.obj []) with
  | .error e => .error e
  | .ok mcp_data =>
    match pyDictGet mcp_data "gatewayRequest" (.obj []) with
    | .error e => .error e
    | .ok gateway_request =>
      match pyDictGet gateway_request "body" (.obj []) with
      | .error e => .error e
      | .ok request_body =>
        match handlerCore strictMode maxLen gateway_request request_body with
        | .ok r => .ok r
        | .error _ =>
          match pyDictGet request_body "id" (.str "unknown") with
          | .ok rid => .ok (create_blocked_response "INTERCEPTOR_ERROR" rid)
          | .error e => .error e

/-- `lambda_handler` with the module-level constants of the source file. -/
def lambda_handler (event : JVal) : Except String JVal :=
  lambda_handler_with STRICT_MODE MAX_STRING_LENGTH event

/-- A well-formed interceptor event: `mcp.gatewayRequest` with the given
headers and body. -/
def mkEvent (headers body : JVal) : JVal :=
  .obj [("mcp", .obj [("gatewayRequest", .obj
    [("headers", headers), ("body", body)])])]

/-- Whether a JSON value is a dict. -/
def jIsObj : JVal → Bool
  | .obj _ => true
  | _ => false

/-!
### Lambda module state (for the statelessness claim)

The module's only global names are the constants `STRICT_MODE` and
`MAX_STRING_LENGTH` (and the derived compiled pattern list); the handler
never assigns to a global, so an invocation returns the module state it
received.
-/

/-- The mutable-in-principle module-level state of the interceptor
module. -/
structure ModuleState where
  strict_mode : Bool
  max_string_length : Nat

/-- The module state after the module body has run (source lines 18-19). -/
def initModuleState : ModuleState := ⟨STRICT_MODE, MAX_STRING_LENGTH⟩

/-- One Lambda invocation on a warm container: the handler reads the module
globals and returns; no global is assigned, so the post-state equals the
pre-state. -/
def invoke (st : ModuleState) (event : JVal) : ModuleState × Except String JVal :=
  (st, lambda_handler_with st.strict_mode st.max_string_length event)

/-- A sequence of invocations sharing one warm container, threading the
module state. -/
def runSeq (st : ModuleState) : List JVal → List (Except String JVal)
  | [] => []
  | e :: es =>
      let p := invoke st e
      p.2 :: runSeq p.1 es

/-!
### Specification lemmas for the SQL-injection interceptor
-/

/-- No compiled pattern matches the empty string. -/
theorem reSearch_empty : ∀ p ∈ COMPILED_PATTERNS, reSearch p.1 [] = false := by
  decide

/-- `detect_sql_injection` flags a string exactly when it is overlong or its
normalization matches one of the compiled patterns. -/
theorem detect_fst_iff (maxLen : Nat) (s : String) :
    (detect_sql_injection maxLen s).1 = true ↔
      maxLen < s.length ∨
        ∃ p ∈ COMPILED_PATTERNS, reSearch p.1 (normalize_string s.data) = true := by
  unfold detect_sql_injection
  by_cases hs : s = ""
  · subst hs
    simp only [if_pos rfl]
    constructor
    · intro h; simp at h
    · rintro (h | ⟨p, hp, hm⟩)
      · simp [String.length] at h
      · rw [show normalize_string "".data = [] from rfl] at hm
        rw [reSearch_empty p hp] at hm
        exact absurd hm (by simp)
  · rw [if_neg hs]
    by_cases hl : s.length > maxLen
    · simp only [if_pos hl]
      exact ⟨fun _ => Or.inl hl, fun _ => trivial⟩
    · rw [if_neg hl]
      cases hf : COMPILED_PATTERNS.find?
          (fun p => reSearch p.1 (normalize_string s.data)) with
      | none =>
        simp only []
        constructor
        · intro h; simp at h
        · rintro (h | ⟨p, hp, hm⟩)
          · exact absurd h hl
          · have := List.find?_eq_none.mp hf p hp
            simp [hm] at this
      | some p =>
        simp only []
        refine ⟨fun _ => Or.inr ⟨p, List.mem_of_find?_eq_some hf, ?_⟩, fun _ => trivial⟩
        simpa using List.find?_some hf

/-- `analyze_arguments_for_sql_injection` reports unsafe exactly when some
nested string is flagged by `detect_sql_injection`. -/
theorem analyze_fst_iff (maxLen : Nat) (args : JVal) :
    (analyze_arguments_for_sql_injection maxLen args).1 = false ↔
      ∃ fv ∈ extract_all_strings args "",
        (detect_sql_injection maxLen fv.2).1 = true := by
  unfold analyze_arguments_for_sql_injection
  by_cases he : (extract_all_strings args "").isEmpty
  · simp only [he, if_pos]
    rw [List.isEmpty_iff] at he
    simp [he]
  · rw [if_neg he]
    cases hf : (extract_all_strings args "").find?
        (fun fv => (detect_sql_injection maxLen fv.2).1) with
    | none =>
      simp only []
      constructor
      · intro h; simp at h
      · rintro ⟨fv, hm, hd⟩
        have := List.find?_eq_none.mp hf fv hm
        simp [hd] at this
    | some fv =>
      simp only []
      exact ⟨fun _ => ⟨fv, List.mem_of_find?_eq_some hf, by simpa using List.find?_some hf⟩,
        fun _ => trivial⟩

/-- A pass-through response is never a blocked response. -/
theorem passthrough_ne_blocked (headers body : JVal) (cat : String) (rid : JVal) :
    passthrough_response headers body ≠ create_blocked_response cat rid := by
  simp [passthrough_response, create_blocked_response]

/-- Reduction of the handler on a well-formed `tools/call` event. -/
theorem lambda_handler_toolsCall
    (headers : JVal) (bodyKvs paramsKvs : List (String × JVal))
    (hmethod : bodyKvs.lookup "method" = some (JVal.str "tools/call"))
    (hparams : bodyKvs.lookup "params" = some (JVal.obj paramsKvs)) :
    lambda_handler (mkEvent headers (JVal.obj bodyKvs)) =
      (if (analyze_arguments_for_sql_injection MAX_STRING_LENGTH
            ((paramsKvs.lookup "arguments").getD (JVal.obj []))).1
       then Except.ok (passthrough_response headers (JVal.obj bodyKvs))
       else Except.ok (create_blocked_response
            (analyze_arguments_for_sql_injection MAX_STRING_LENGTH
              ((paramsKvs.lookup "arguments").getD (JVal.obj []))).2.2
            ((bodyKvs.lookup "id").getD (JVal.str "unknown")))) := by
  have h1 : lambda_handler (mkEvent headers (JVal.obj bodyKvs)) =
      (match handlerCore STRICT_MODE MAX_STRING_LENGTH
          (JVal.obj [("headers", headers), ("body", JVal.obj bodyKvs)])
          (JVal.obj bodyKvs) with
       | .ok r => Except.ok r
       | .error _ =>
         match pyDictGet (JVal.obj bodyKvs) "id" (JVal.str "unknown") with
         | .ok rid => Except.ok (create_blocked_response "INTERCEPTOR_ERROR" rid)
         | .error e => Except.error e) := rfl
  have hm : pyDictGet (JVal.obj bodyKvs) "method" (JVal.str "") =
      Except.ok (JVal.str "tools/call") := by
    simp [pyDictGet, hmethod]
  have hid : pyDictGet (JVal.obj bodyKvs) "id" (JVal.str "unknown") =
      Except.ok ((bodyKvs.lookup "id").getD (JVal.str "unknown")) := by
    simp [pyDictGet]
  have hp : pyDictGet (JVal.obj bodyKvs) "params" (JVal.obj []) =
      Except.ok (JVal.obj paramsKvs) := by
    simp [pyDictGet, hparams]
  have ha : pyDictGet (JVal.obj paramsKvs) "arguments" (JVal.obj []) =
      Except.ok ((paramsKvs.lookup "arguments").getD (JVal.obj [])) := by
    simp [pyDictGet]
  have hcore : handlerCore STRICT_MODE MAX_STRING_LENGTH
      (JVal.obj [("headers", headers), ("body", JVal.obj bodyKvs)])
      (JVal.obj bodyKvs) =
      handlerAnalyze STRICT_MODE MAX_STRING_LENGTH
        (JVal.obj [("headers", headers), ("body", JVal.obj bodyKvs)])
        (JVal.obj bodyKvs)
        ((bodyKvs.lookup "id").getD (JVal.str "unknown"))
        ((paramsKvs.lookup "arguments").getD (JVal.obj [])) := by
    unfold handlerCore
    rw [hm, hid]
    simp [jIsStr, pyDictGet, hparams]
  have hana : handlerAnalyze STRICT_MODE MAX_STRING_LENGTH
      (JVal.obj [("headers", headers), ("body", JVal.obj bodyKvs)])
      (JVal.obj bodyKvs)
      ((bodyKvs.lookup "id").getD (JVal.str "unknown"))
      ((paramsKvs.lookup "arguments").getD (JVal.obj [])) =
      (if (analyze_arguments_for_sql_injection MAX_STRING_LENGTH
            ((paramsKvs.lookup "arguments").getD (JVal.obj []))).1
       then Except.ok (passthrough_response headers (JVal.obj bodyKvs))
       else Except.ok (create_blocked_response
            (analyze_arguments_for_sql_injection MAX_STRING_LENGTH
              ((paramsKvs.lookup "arguments").getD (JVal.obj []))).2.2
            ((bodyKvs.lookup "id").getD (JVal.str "unknown")))) := by
    unfold handlerAnalyze
    simp only [STRICT_MODE, Bool.false_eq_true, if_false]
    split
    · next hsafe => simp [pyDictGet, hsafe]
    · next hsafe => simp [hsafe]
  rw [h1, hcore, hana]
  cases (analyze_arguments_for_sql_injection MAX_STRING_LENGTH
      ((paramsKvs.lookup "arguments").getD (JVal.obj []))).1 <;> simp

end SqlLambda

/-- C1: for every MCP `tools/call` request event (with `STRICT_MODE` off),
the SQL-injection interceptor returns the 403 blocked JSON-RPC error
response if and only if some string value nested anywhere inside
`params.arguments` either exceeds 10000 characters or, after whitespace
runs are collapsed to single spaces and the string is lowercased, matches
at least one of the fixed list of 11 compiled SQL-injection regex patterns;
otherwise it returns the original request headers and body unchanged as
`transformedGatewayRequest`. -/
theorem c1_sql_injection_interceptor
    (headers : JVal) (bodyKvs paramsKvs : List (String × JVal))
    (hmethod : bodyKvs.lookup "method" = some (JVal.str "tools/call"))
    (hparams : bodyKvs.lookup "params" = some (JVal.obj paramsKvs)) :
    ((∃ cat, SqlLambda.lambda_handler (SqlLambda.mkEvent headers (JVal.obj bodyKvs)) =
        Except.ok (SqlLambda.create_blocked_response cat
          ((bodyKvs.lookup "id").getD (JVal.str "unknown")))) ↔
      ∃ fv ∈ SqlLambda.extract_all_strings
          ((paramsKvs.lookup "arguments").getD (JVal.obj [])) "",
        SqlLambda.MAX_STRING_LENGTH < fv.2.length ∨
          ∃ p ∈ SqlLambda.COMPILED_PATTERNS,
            SqlLambda.reSearch p.1 (SqlLambda.normalize_string fv.2.data) = true) ∧
    ((¬ ∃ fv ∈ SqlLambda.extract_all_strings
          ((paramsKvs.lookup "arguments").getD (JVal.obj [])) "",
        SqlLambda.MAX_STRING_LENGTH < fv.2.length ∨
          ∃ p ∈ SqlLambda.COMPILED_PATTERNS,
            SqlLambda.reSearch p.1 (SqlLambda.normalize_string fv.2.data) = true) →
      SqlLambda.lambda_handler (SqlLambda.mkEvent headers (JVal.obj bodyKvs)) =
        Except.ok (SqlLambda.passthrough_response headers (JVal.obj bodyKvs))) := by
  have hred := SqlLambda.lambda_handler_toolsCall headers bodyKvs paramsKvs hmethod hparams
  have hbadiff :
      (∃ fv ∈ SqlLambda.extract_all_strings
          ((paramsKvs.lookup "arguments").getD (JVal.obj [])) "",
        SqlLambda.MAX_STRING_LENGTH < fv.2.length ∨
          ∃ p ∈ SqlLambda.COMPILED_PATTERNS,
            SqlLambda.reSearch p.1 (SqlLambda.normalize_string fv.2.data) = true) ↔
      (∃ fv ∈ SqlLambda.extract_all_strings
          ((paramsKvs.lookup "arguments").getD (JVal.obj [])) "",
        (SqlLambda.detect_sql_injection SqlLambda.MAX_STRING_LENGTH fv.2).1 = true) := by
    constructor
    · rintro ⟨fv, hm, h⟩
      exact ⟨fv, hm, (SqlLambda.detect_fst_iff _ _).mpr h⟩
    · rintro ⟨fv, hm, h⟩
      exact ⟨fv, hm, (SqlLambda.detect_fst_iff _ _).mp h⟩
  cases hsafe : (SqlLambda.analyze_arguments_for_sql_injection SqlLambda.MAX_STRING_LENGTH
      ((paramsKvs.lookup "arguments").getD (JVal.obj []))).1 with
  | true =>
    rw [hsafe, if_pos rfl] at hred
    have hnobad : ¬ (∃ fv ∈ SqlLambda.extract_all_strings
          ((paramsKvs.lookup "arguments").getD (JVal.obj [])) "",
        (SqlLambda.detect_sql_injection SqlLambda.MAX_STRING_LENGTH fv.2).1 = true) := by
      intro hb
      have := (SqlLambda.analyze_fst_iff _ _).mpr hb
      rw [hsafe] at this
      exact absurd this (by simp)
    constructor
    · constructor
      · rintro ⟨cat, hc⟩
        rw [hred] at hc
        exact absurd (Except.ok.inj hc) (SqlLambda.passthrough_ne_blocked _ _ _ _)
      · intro hb
        exact absurd (hbadiff.mp hb) hnobad
    · intro _
      exact hred
  | false =>
    rw [hsafe] at hred
    simp only [Bool.false_eq_true, if_false] at hred
    have hbad := (SqlLambda.analyze_fst_iff _ _).mp hsafe
    constructor
    · exact ⟨fun _ => hbadiff.mpr hbad, fun _ => ⟨_, hred⟩⟩
    · intro hnb
      exact absurd (hbadiff.mpr hbad) hnb

/-- Concrete benign arguments for the C1 witness. -/
def c1ParamsGood : List (String × JVal) :=
  [("name", JVal.str "get_orders"), ("arguments", JVal.obj [("q", JVal.str "hello world")])]

/-- Concrete benign request body for the C1 witness. -/
def c1BodyGood : List (String × JVal) :=
  [("method", JVal.str "tools/call"), ("id", JVal.num 3),
   ("params", JVal.obj c1ParamsGood)]

/-- Witness for C1: a concrete benign `tools/call` event passes through
unchanged. -/
theorem c1_sql_injection_interceptor_witness :
    c1BodyGood.lookup "method" = some (JVal.str "tools/call") ∧
    c1BodyGood.lookup "params" = some (JVal.obj c1ParamsGood) ∧
    SqlLambda.lambda_handler (SqlLambda.mkEvent (JVal.obj []) (JVal.obj c1BodyGood)) =
      Except.ok (SqlLambda.passthrough_response (JVal.obj []) (JVal.obj c1BodyGood)) := by
  refine ⟨rfl, rfl, ?_⟩
  exact (c1_sql_injection_interceptor (JVal.obj []) c1BodyGood c1ParamsGood rfl rfl).2
    (by decide)

/-- Counterexample for C9 as stated: on the event `null` (any non-dict
event value, or any event whose `mcp`/`gatewayRequest`/`body` extraction
fails), the `except` block itself raises (`request_body` is unbound or not
a dict) and the exception propagates out of `lambda_handler` instead of a
blocked response being returned. -/
theorem c9_counterexample_null_event :
    (SqlLambda.lambda_handler JVal.null).isOk = false := rfl

/-- C9 (amended): the SQL-injection interceptor fails closed on internal
errors only once `request_body` has been successfully extracted as a dict:
for every event of the well-formed envelope shape whose body is a dict, the
handler returns a response (no exception propagates), and when the
exception arises from a non-dict `params` value the response is the 403
blocked response with category `INTERCEPTOR_ERROR`. -/
theorem c9_fail_closed_after_body_extraction
    (headers : JVal) (bodyKvs : List (String × JVal)) :
    ((SqlLambda.lambda_handler (SqlLambda.mkEvent headers (JVal.obj bodyKvs))).isOk = true) ∧
    (∀ pv : JVal, bodyKvs.lookup "method" = some (JVal.str "tools/call") →
      bodyKvs.lookup "params" = some pv → SqlLambda.jIsObj pv = false →
      SqlLambda.lambda_handler (SqlLambda.mkEvent headers (JVal.obj bodyKvs)) =
        Except.ok (SqlLambda.create_blocked_response "INTERCEPTOR_ERROR"
          ((bodyKvs.lookup "id").getD (JVal.str "unknown")))) := by
  have h1 : SqlLambda.lambda_handler (SqlLambda.mkEvent headers (JVal.obj bodyKvs)) =
      (match SqlLambda.handlerCore SqlLambda.STRICT_MODE SqlLambda.MAX_STRING_LENGTH
          (JVal.obj [("headers", headers), ("body", JVal.obj bodyKvs)])
          (JVal.obj bodyKvs) with
       | .ok r => Except.ok r
       | .error _ => Except.ok (SqlLambda.create_blocked_response "INTERCEPTOR_ERROR"
           ((bodyKvs.lookup "id").getD (JVal.str "unknown")))) := rfl
  constructor
  · rw [h1]
    cases SqlLambda.handlerCore SqlLambda.STRICT_MODE SqlLambda.MAX_STRING_LENGTH
        (JVal.obj [("headers", headers), ("body", JVal.obj bodyKvs)])
        (JVal.obj bodyKvs) with
    | ok r => rfl
    | error e => rfl
  · intro pv hmethod hparams hno
    have hcore : SqlLambda.handlerCore SqlLambda.STRICT_MODE SqlLambda.MAX_STRING_LENGTH
        (JVal.obj [("headers", headers), ("body", JVal.obj bodyKvs)])
        (JVal.obj bodyKvs) =
        Except.error "AttributeError: object has no attribute get" := by
      have hm : pyDictGet (JVal.obj bodyKvs) "method" (JVal.str "") =
          Except.ok (JVal.str "tools/call") := by
        simp [pyDictGet, hmethod]
      have hp : pyDictGet (JVal.obj bodyKvs) "params" (JVal.obj []) =
          Except.ok pv := by
        simp [pyDictGet, hparams]
      unfold SqlLambda.handlerCore
      rw [hm, hp]
      simp only [jIsStr, pyDictGet]
      cases pv with
      | obj kvs => simp [SqlLambda.jIsObj] at hno
      | null => rfl
      | bool b => rfl
      | num n => rfl
      | str s => rfl
      | arr xs => rfl
    rw [h1, hcore]

/-- Witness for C9 (amended): a concrete `tools/call` event with a string
`params` value yields the `INTERCEPTOR_ERROR` blocked response. -/
theorem c9_fail_closed_witness :
    ([(("method" : String), JVal.str "tools/call"), ("params", JVal.str "oops"),
        ("id", JVal.num 9)].lookup "method" = some (JVal.str "tools/call")) ∧
    SqlLambda.lambda_handler (SqlLambda.mkEvent (JVal.obj [])
        (JVal.obj [("method", JVal.str "tools/call"), ("params", JVal.str "oops"),
          ("id", JVal.num 9)])) =
      Except.ok (SqlLambda.create_blocked_response "INTERCEPTOR_ERROR" (JVal.num 9)) := by
  refine ⟨rfl, ?_⟩
  exact (c9_fail_closed_after_body_extraction (JVal.obj [])
    [("method", JVal.str "tools/call"), ("params", JVal.str "oops"), ("id", JVal.num 9)]).2
    (JVal.str "oops") rfl rfl rfl

/-- On every event list, running invocations one after another on the same
warm container is the same as running each invocation on the initial module
state. -/
theorem runSeq_eq_map (st : SqlLambda.ModuleState) (events : List JVal) :
    SqlLambda.runSeq st events =
      events.map (fun e => (SqlLambda.invoke st e).2) := by
  induction events with
  | nil => rfl
  | cons e es ih => simp [SqlLambda.runSeq, SqlLambda.invoke, ih]

/-- C10: every handler is stateless per invocation: in a sequence of
invocations of the SQL-injection interceptor sharing one container, any two
invocations on equal event values return equal responses; no state is
carried over from one invocation to the next. -/
theorem c10_stateless_per_invocation (events : List JVal) (i j : Nat)
    (h : events[i]? = events[j]?) :
    (SqlLambda.runSeq SqlLambda.initModuleState events)[i]? =
      (SqlLambda.runSeq SqlLambda.initModuleState events)[j]? := by
  rw [runSeq_eq_map, List.getElem?_map, List.getElem?_map, h]

/-- Witness for C10: two invocations on the same concrete event give the
same response. -/
theorem c10_stateless_witness :
    ([SqlLambda.mkEvent (JVal.obj []) (JVal.obj []),
       SqlLambda.mkEvent (JVal.obj []) (JVal.obj [])][(0 : Nat)]? =
     [SqlLambda.mkEvent (JVal.obj []) (JVal.obj []),
       SqlLambda.mkEvent (JVal.obj []) (JVal.obj [])][(1 : Nat)]?) ∧
    ((SqlLambda.runSeq SqlLambda.initModuleState
        [SqlLambda.mkEvent (JVal.obj []) (JVal.obj []),
         SqlLambda.mkEvent (JVal.obj []) (JVal.obj [])])[(0 : Nat)]? =
      (SqlLambda.runSeq SqlLambda.initModuleState
        [SqlLambda.mkEvent (JVal.obj []) (JVal.obj []),
         SqlLambda.mkEvent (JVal.obj []) (JVal.obj [])])[(1 : Nat)]?) := by
  refine ⟨rfl, ?_⟩
  exact c10_stateless_per_invocation _ 0 1 rfl

namespace PiLambda

/-!
## Prompt-injection prevention interceptor

Embedding of `15-prevent-prompt-injection/src/lambda/lambda_function.py`.

The Lambda delegates the safety decision to the external Amazon Bedrock
Guardrails service (`bedrock_runtime.apply_guardrail`).  The service is
modelled by an oracle `applyGuardrail : JVal → Except String
GuardrailResponse` mapping the submitted content to the call outcome
(`Except.error` models a raised exception, including parameter-validation
errors for non-string content).  The environment configuration
`GUARDRAIL_ID` is modelled by an `Option String` (`none` when the variable
is unset).
-/

/-- The `promptAttack` part of a Guardrails assessment. -/
structure PromptAttack where
  jailbreak : Bool
  promptInjection : Bool

/-- One entry of `contentPolicy.filters` in a Guardrails assessment; `ftype`
is the value of its `type` key after the `.get('type', 'unknown')`
default. -/
structure ContentFilter where
  action : String
  ftype : String

/-- One Guardrails assessment: `promptAttack` (absent or empty dict modelled
as `none`) and the `contentPolicy.filters` list (absent modelled as `[]`,
which is also how the code treats it). -/
structure Assessment where
  promptAttack : Option PromptAttack
  contentPolicyFilters : List ContentFilter

/-- A response of `apply_guardrail`: the `action` string and the
`assessments` list. -/
structure GuardrailResponse where
  action : String
  assessments : List Assessment

/-- The `detected_types` list built for a `promptAttack` assessment
(source lines 80-84). -/
def detectedTypes (pa : PromptAttack) : List String :=
  (if pa.jailbreak then ["jailbreak attempt"] else []) ++
    (if pa.promptInjection then ["prompt injection"] else [])

/-- The reasons contributed by one assessment (source lines 76-97):
prompt-attack detections, then blocked content-policy filters. -/
def assessmentReasons (a : Assessment) : List String :=
  (match a.promptAttack with
   | some pa =>
       let dt := detectedTypes pa
       if dt.isEmpty then [] else ["Detected: " ++ String.intercalate ", " dt]
   | none => []) ++
    (a.contentPolicyFilters.filterMap fun f =>
      if f.action = "BLOCKED" then some ("Content policy violation: " ++ f.ftype)
      else none)

/-- Python falsiness of the `GUARDRAIL_ID` environment value: unset or
empty. -/
def gidFalsy : Option String → Bool
  | none => true
  | some g => g = ""

/-- `analyze_prompt_with_guardrails` (source lines 27-130) after the initial
debug print, as a function of the configuration and of the outcome of the
`apply_guardrail` call: returns `(is_safe, reason)`.  The submitted query
itself only flows into the call, which the outcome parameter models. -/
def analyze_prompt_core (gid : Option String)
    (applyResult : Except String GuardrailResponse) : Bool × String :=
  if gidFalsy gid then (false, "Guardrail not configured")
  else
    match applyResult with
    | .error e => (false, "Security analysis failed: " ++ e.take 100)
    | .ok resp =>
      if resp.action = "GUARDRAIL_INTERVENED" then
        let reasons := resp.assessments.flatMap assessmentReasons
        (false, if reasons.isEmpty then "Potential security threat detected"
                else String.intercalate "; " reasons)
      else if resp.action = "NONE" then (true, "Query passed security analysis")
      else (false, "Unexpected security response: " ++ resp.action)

/-- `analyze_prompt_with_guardrails` on the raw query value: the first debug
print slices `user_query[:200]`, which raises `TypeError` when the value is
not sliceable (not a string or list); the slice happens before the
`GUARDRAIL_ID` check. -/
def analyze_prompt_jval (gid : Option String)
    (applyGuardrail : JVal → Except String GuardrailResponse) (q : JVal) :
    Except String (Bool × String) :=
  match q with
  | .str _ => .ok (analyze_prompt_core gid (applyGuardrail q))
  | .arr _ => .ok (analyze_prompt_core gid (applyGuardrail q))
  | _ => .error "TypeError: value is not sliceable"

/-- `create_blocked_response` (source lines 132-177).  The
`request_headers` parameter is accepted but, exactly as in the source, not
used in the response body. -/
def create_blocked_response (reason : String) (request_id : JVal)
    (_request_headers : JVal) : JVal :=
  .obj [("interceptorOutputVersion", .str "1.0"),
        ("mcp", .obj [("transformedGatewayResponse", .obj
          [("statusCode", .num 403),
           ("headers", .obj [("Content-Type", .str "application/json"),
                             ("X-Security-Status", .str "BLOCKED")]),
           ("body", .obj [("jsonrpc", .str "2.0"),
                          ("id", request_id),
                          ("error", .obj
                            [("code", .num (-32000)),
                             ("message", .str "Request blocked by security interceptor"),
                             ("data", .obj
                               [("reason", .str reason),
                                ("security_policy", .str "prompt_injection_prevention")])])])])])]

/-- The pass-through response (source lines 238-246, 267-275, 291-299). -/
def passthrough_response (headers body : JVal) : JVal :=
  .obj [("interceptorOutputVersion", .str "1.0"),
        ("mcp", .obj [("transformedGatewayRequest", .obj
          [("headers", headers), ("body", body)])])]

/-- The body of the `try` block of `lambda_handler` (source lines 213-313),
after `request_headers` and `request_body` have been bound. -/
def handlerCore (gid : Option String)
    (applyGuardrail : JVal → Except String GuardrailResponse)
    (request_headers request_body : JVal) : Except String JVal :=
  match pyDictGet request_body "method" (.str "") with
  | .error e => .error e
  | .ok method =>
    match pyDictGet request_body "id" (.str "unknown") with
    | .error e => .error e
    | .ok request_id =>
      if !jIsStr method "tools/call" then
        .ok (passthrough_response request_headers request_body)
      else
        match pyDictGet request_body "params" (.obj []) with
        | .error e => .error e
        | .ok params =>
          match pyDictGet params "name" (.str "") with
          | .error e => .error e
          | .ok _tool_name =>
            match pyDictGet params "arguments" (.obj []) with
            | .error e => .error e
            | .ok arguments =>
              match pyDictGet arguments "query" (.str "") with
              | .error e => .error e
              | .ok user_query =>
                if jFalsy user_query then
                  .ok (passthrough_response request_headers request_body)
                else
                  match analyze_prompt_jval gid applyGuardrail user_query with
                  | .error e => .error e
                  | .ok r =>
                    if r.1 then
                      .ok (passthrough_response request_headers request_body)
                    else
                      .ok (create_blocked_response r.2 request_id request_headers)

/-- `lambda_handler` (source lines 180-332).  As in the SQL interceptor, the
`except` block references `request_body` (and `gateway_request`), so when
the exception was raised before `request_body` was bound to a dict the
handler itself raises. -/
def lambda_handler (gid : Option String)
    (applyGuardrail : JVal → Except String GuardrailResponse) (event : JVal) :
    Except String JVal :=
  match pyDictGet event "mcp" (.obj []) with
  | .error e => .error e
  | .ok mcp_data =>
    match pyDictGet mcp_data "gatewayRequest" (.obj []) with
    | .error e => .error e
    | .ok gateway_request =>
      match pyDictGet gateway_request "headers" (.obj []) with
      | .error e => .error e
      | .ok request_headers =>
        match pyDictGet gateway_request "body" (.obj []) with
        | .error e => .error e
        | .ok request_body =>
          match handlerCore gid applyGuardrail request_headers request_body with
          | .ok r => .ok r
          | .error e =>
            match pyDictGet request_body "id" (.str "unknown") with
            | .ok rid => .ok (create_blocked_response
                ("Interceptor error: " ++ e.take 100) rid request_headers)
            | .error e2 => .error e2

/-- A well-formed interceptor event for the prompt-injection Lambda. -/
def mkEvent (headers body : JVal) : JVal :=
  .obj [("mcp", .obj [("gatewayRequest", .obj
    [("headers", headers), ("body", body)])])]

/-- Whether an interceptor result is a short-circuiting blocked response
(`transformedGatewayResponse`) rather than a pass-through
(`transformedGatewayRequest`); this is the block/pass decision of the
interceptor. -/
def decisionBlocked (r : Except String JVal) : Bool :=
  match r with
  | .ok (.obj kvs) =>
    (match kvs.lookup "mcp" with
     | some (.obj m) => (m.lookup "transformedGatewayResponse").isSome
     | _ => false)
  | _ => false

end PiLambda

/-- A concrete `tools/call` event carrying a `query` argument, for the C6
counterexample. -/
def c6Event : JVal :=
  PiLambda.mkEvent (JVal.obj [])
    (JVal.obj [("method", JVal.str "tools/call"), ("id", JVal.num 1),
      ("params", JVal.obj [("name", JVal.str "customer_query"),
        ("arguments", JVal.obj [("query", JVal.str "hello")])])])

/-- A Guardrails oracle that reports no intervention. -/
def c6OracleNone : JVal → Except String PiLambda.GuardrailResponse :=
  fun _ => .ok ⟨"NONE", []⟩

/-- A Guardrails oracle that reports an intervention. -/
def c6OracleIntervene : JVal → Except String PiLambda.GuardrailResponse :=
  fun _ => .ok ⟨"GUARDRAIL_INTERVENED", []⟩

/-- Counterexample for C6 as stated: on one and the same `tools/call`
request content, the interceptor's block/pass decision depends on the
outcome of the external Bedrock Guardrails API call — it passes the request
when the service answers `NONE` and blocks it when the service answers
`GUARDRAIL_INTERVENED` — so the decision is not computed by regex pattern
matching (or by any function at all) over the request content alone. -/
theorem c6_counterexample_decision_not_content_determined :
    PiLambda.decisionBlocked
        (PiLambda.lambda_handler (some "gr-test") c6OracleNone c6Event) = false ∧
    PiLambda.decisionBlocked
        (PiLambda.lambda_handler (some "gr-test") c6OracleIntervene c6Event) = true := by
  exact ⟨rfl, rfl⟩

/-- `analyze_prompt_core` reports safe exactly when a guardrail is
configured, the API call succeeded, and the returned action is `NONE`. -/
theorem analyze_core_safe_iff (gid : Option String)
    (r : Except String PiLambda.GuardrailResponse) :
    (PiLambda.analyze_prompt_core gid r).1 = true ↔
      (PiLambda.gidFalsy gid = false ∧
        ∃ resp, r = .ok resp ∧ resp.action = "NONE") := by
  unfold PiLambda.analyze_prompt_core
  by_cases hg : PiLambda.gidFalsy gid
  · simp [hg]
  · have hg2 : PiLambda.gidFalsy gid = false := by
      revert hg; cases PiLambda.gidFalsy gid <;> simp
    simp only [if_neg hg]
    cases r with
    | error e =>
      simp [hg2]
    | ok resp =>
      by_cases hi : resp.action = "GUARDRAIL_INTERVENED"
      · simp [hi, hg2]
      · by_cases hn : resp.action = "NONE"
        · simp [hi, hn, hg2]
        · simp [hi, hn, hg2]

/-- C6 (amended): the prompt-injection filter delegates its decision to the
external Bedrock Guardrails service rather than to regex matching inside
the Lambda: for every `tools/call` request carrying a non-empty string
`query` argument, the handler passes the request through exactly when a
guardrail is configured and the `apply_guardrail` call returns action
`NONE`, and otherwise returns the 403 blocked response (fail-closed on
missing configuration, API errors, interventions and unexpected
actions). -/
theorem c6_guardrail_delegation
    (gid : Option String) (oracle : JVal → Except String PiLambda.GuardrailResponse)
    (headers : JVal) (bodyKvs paramsKvs argKvs : List (String × JVal)) (q : String)
    (hmethod : bodyKvs.lookup "method" = some (JVal.str "tools/call"))
    (hparams : bodyKvs.lookup "params" = some (JVal.obj paramsKvs))
    (hargs : paramsKvs.lookup "arguments" = some (JVal.obj argKvs))
    (hquery : argKvs.lookup "query" = some (JVal.str q))
    (hq : q ≠ "") :
    PiLambda.lambda_handler gid oracle (PiLambda.mkEvent headers (JVal.obj bodyKvs)) =
      Except.ok
        (if (PiLambda.analyze_prompt_core gid (oracle (JVal.str q))).1
         then PiLambda.passthrough_response headers (JVal.obj bodyKvs)
         else PiLambda.create_blocked_response
            (PiLambda.analyze_prompt_core gid (oracle (JVal.str q))).2
            ((bodyKvs.lookup "id").getD (JVal.str "unknown")) headers) ∧
    ((PiLambda.analyze_prompt_core gid (oracle (JVal.str q))).1 = true ↔
      (PiLambda.gidFalsy gid = false ∧
        ∃ resp, oracle (JVal.str q) = .ok resp ∧ resp.action = "NONE")) := by
  refine ⟨?_, analyze_core_safe_iff gid (oracle (JVal.str q))⟩
  have h1 : PiLambda.lambda_handler gid oracle
      (PiLambda.mkEvent headers (JVal.obj bodyKvs)) =
      (match PiLambda.handlerCore gid oracle headers (JVal.obj bodyKvs) with
       | .ok r => Except.ok r
       | .error e => Except.ok (PiLambda.create_blocked_response
           ("Interceptor error: " ++ e.take 100)
           ((bodyKvs.lookup "id").getD (JVal.str "unknown")) headers)) := rfl
  have hm : pyDictGet (JVal.obj bodyKvs) "method" (JVal.str "") =
      Except.ok (JVal.str "tools/call") := by
    simp [pyDictGet, hmethod]
  have hid : pyDictGet (JVal.obj bodyKvs) "id" (JVal.str "unknown") =
      Except.ok ((bodyKvs.lookup "id").getD (JVal.str "unknown")) := by
    simp [pyDictGet]
  have hcore : PiLambda.handlerCore gid oracle headers (JVal.obj bodyKvs) =
      Except.ok
        (if (PiLambda.analyze_prompt_core gid (oracle (JVal.str q))).1
         then PiLambda.passthrough_response headers (JVal.obj bodyKvs)
         else PiLambda.create_blocked_response
            (PiLambda.analyze_prompt_core gid (oracle (JVal.str q))).2
            ((bodyKvs.lookup "id").getD (JVal.str "unknown")) headers) := by
    unfold PiLambda.handlerCore
    rw [hm, hid]
    simp only [jIsStr, pyDictGet, hparams, Option.getD, hargs, hquery,
      PiLambda.analyze_prompt_jval, jFalsy]
    simp only [hq]
    simp [hq]
    split <;> rfl
  rw [h1, hcore]

/-- Witness for C6 (amended): with a configured guardrail and a `NONE`
verdict from the service, the concrete event passes through. -/
theorem c6_guardrail_delegation_witness :
    ("hello" ≠ "") ∧
    PiLambda.lambda_handler (some "gr-test") c6OracleNone c6Event =
      Except.ok (PiLambda.passthrough_response (JVal.obj [])
        (JVal.obj [("method", JVal.str "tools/call"), ("id", JVal.num 1),
          ("params", JVal.obj [("name", JVal.str "customer_query"),
            ("arguments", JVal.obj [("query", JVal.str "hello")])])])) := by
  refine ⟨by decide, ?_⟩
  have h := (c6_guardrail_delegation (some "gr-test") c6OracleNone (JVal.obj [])
    [("method", JVal.str "tools/call"), ("id", JVal.num 1),
      ("params", JVal.obj [("name", JVal.str "customer_query"),
        ("arguments", JVal.obj [("query", JVal.str "hello")])])]
    [("name", JVal.str "customer_query"),
      ("arguments", JVal.obj [("query", JVal.str "hello")])]
    [("query", JVal.str "hello")] "hello" rfl rfl rfl rfl (by decide)).1
  simpa [PiLambda.analyze_prompt_core, c6OracleNone, PiLambda.gidFalsy] using h

namespace McpProxy

/-!
## OAuth/MCP proxy Lambda

Embedding of `04-enterprise-mcp-demo/cdk/lambda/mcp_proxy_lambda.py`.

Strings are handled at the level of Unicode scalar sequences (`List Char`).
The Python standard-library routines the handlers call are modelled as
follows:

* `urllib.parse.unquote`: percent-escapes are decoded bytewise; this agrees
  with Python on ASCII percent-escapes, and the only place the proxy applies
  it to data it later consumes is the base64url state parameter, which
  contains no percent sign at all;
* `json.dumps` (default `ensure_ascii=True`) of the two-field compound-state
  dict: `jsonDumpsCompound`, producing pure ASCII;
* `json.loads` followed by the two `.get` lookups: `parseCompound`, a parser
  of exactly the canonical serialization this module itself produces (it
  answers `none` elsewhere, where the Python code would raise or return
  defaults);
* `.encode()`/`.decode()` (UTF-8): on the pure-ASCII strings reachable here
  these are `List.map Char.toNat` and `asciiDecode`;
* `base64.urlsafe_b64encode/b64decode`: `b64encode`/`b64decode` (the decoder
  is strict where Python is lenient about non-alphabet characters, which the
  encoder never produces).
-/

/-- Value of a hexadecimal digit character. -/
def hexVal? (c : Char) : Option Nat :=
  if '0' ≤ c ∧ c ≤ '9' then some (c.toNat - 48)
  else if 'a' ≤ c ∧ c ≤ 'f' then some (c.toNat - 87)
  else if 'A' ≤ c ∧ c ≤ 'F' then some (c.toNat - 55)
  else none

/-- Single-pass worker for `unquote`.  The second argument is the pending
escape state: `none` when scanning normally, `some none` just after a `%`,
and `some (some a)` after `%` and one hex digit `a`. -/
def unquoteAux : List Char → Option (Option Char) → List Char
  | [], none => []
  | [], some none => ['%']
  | [], some (some a) => ['%', a]
  | c :: cs, none =>
      if c = '%' then unquoteAux cs (some none) else c :: unquoteAux cs none
  | c :: cs, some none =>
      (match hexVal? c with
       | some _ => unquoteAux cs (some (some c))
       | none =>
         if c = '%' then '%' :: unquoteAux cs (some none)
         else '%' :: c :: unquoteAux cs none)
  | c :: cs, some (some a) =>
      (match hexVal? a, hexVal? c with
       | some x, some y => Char.ofNat (16 * x + y) :: unquoteAux cs none
       | _, _ =>
         if c = '%' then '%' :: a :: unquoteAux cs (some none)
         else '%' :: a :: c :: unquoteAux cs none)

/-- `urllib.parse.unquote`, bytewise on ASCII escapes: `%XY` with two hex
digits becomes the character of that code; anything else is copied (an
invalid escape leaves the `%` in place and rescans from the following
character, as Python does). -/
def unquote (l : List Char) : List Char := unquoteAux l none

/-- `unquote` on a `String`. -/
def unquoteStr (s : String) : String := (unquote s.data).asString

/-- Lowercase hex digit character (as produced by `json.dumps`). -/
def hexDigitChar (n : Nat) : Char :=
  if n < 10 then Char.ofNat (48 + n) else Char.ofNat (87 + n)

/-- Four-digit lowercase hex rendering of `n < 0x10000`, as in `\uXXXX`. -/
def hex4 (n : Nat) : List Char :=
  [hexDigitChar (n / 4096 % 16), hexDigitChar (n / 256 % 16),
   hexDigitChar (n / 16 % 16), hexDigitChar (n % 16)]

/-- The escape of one character in a `json.dumps` string with the default
`ensure_ascii=True`: the seven short escapes, `\u00XX` for other control
characters, the character itself in the printable ASCII range, `\uXXXX` for
other characters of the basic multilingual plane, and a surrogate pair for
characters beyond it. -/
def escChar (c : Char) : List Char :=
  if c = '"' then ['\\', '"']
  else if c = '\\' then ['\\', '\\']
  else if c = '\x08' then ['\\', 'b']
  else if c = '\x0c' then ['\\', 'f']
  else if c = '\n' then ['\\', 'n']
  else if c = '\r' then ['\\', 'r']
  else if c = '\t' then ['\\', 't']
  else if c.toNat < 0x20 ∨ 0x7e < c.toNat then
    (if c.toNat < 0x10000 then '\\' :: 'u' :: hex4 c.toNat
     else
       ('\\' :: 'u' :: hex4 (0xd800 + (c.toNat - 0x10000) / 0x400)) ++
         ('\\' :: 'u' :: hex4 (0xdc00 + (c.toNat - 0x10000) % 0x400)))
  else [c]

/-- `json.dumps` escaping of a whole string body. -/
def escape (l : List Char) : List Char := l.flatMap escChar

/-- `json.dumps({"state": state, "redirect_uri": redirect_uri})` with the
default separators, a pure-ASCII string. -/
def jsonDumpsCompound (state redirect_uri : List Char) : List Char :=
  "\x7b\"state\": \"".data ++ escape state ++
    "\", \"redirect_uri\": \"".data ++ escape redirect_uri ++ "\"\x7d".data

/-- Character of a base64url sextet. -/
def b64Char (n : Nat) : Char :=
  if n < 26 then Char.ofNat (65 + n)
  else if n < 52 then Char.ofNat (97 + (n - 26))
  else if n < 62 then Char.ofNat (48 + (n - 52))
  else if n = 62 then '-'
  else '_'

/-- Sextet of a base64url character. -/
def b64Val? (c : Char) : Option Nat :=
  if 'A' ≤ c ∧ c ≤ 'Z' then some (c.toNat - 65)
  else if 'a' ≤ c ∧ c ≤ 'z' then some (c.toNat - 97 + 26)
  else if '0' ≤ c ∧ c ≤ '9' then some (c.toNat - 48 + 52)
  else if c = '-' then some 62
  else if c = '_' then some 63
  else none

/-- `base64.urlsafe_b64encode` on a byte list, with `=` padding. -/
def b64encode : List Nat → List Char
  | [] => []
  | [a] => [b64Char (a / 4), b64Char (a % 4 * 16), '=', '=']
  | [a, b] => [b64Char (a / 4), b64Char (a % 4 * 16 + b / 16), b64Char (b % 16 * 4), '=']
  | a :: b :: c :: rest =>
      b64Char (a / 4) :: b64Char (a % 4 * 16 + b / 16) ::
        b64Char (b % 16 * 4 + c / 64) :: b64Char (c % 64) :: b64encode rest

/-- `base64.urlsafe_b64decode` on correctly padded input (strict: answers
`none` on anything outside the encoder's image shape). -/
def b64decode : List Char → Option (List Nat)
  | [] => some []
  | c1 :: c2 :: c3 :: c4 :: rest =>
    (match b64Val? c1, b64Val? c2 with
     | some v1, some v2 =>
       if c3 = '=' then
         (if c4 = '=' ∧ rest = [] then some [v1 * 4 + v2 / 16] else none)
       else
         (match b64Val? c3 with
          | some v3 =>
            if c4 = '=' then
              (if rest = [] then some [v1 * 4 + v2 / 16, v2 % 16 * 16 + v3 / 4]
               else none)
            else
              (match b64Val? c4 with
               | some v4 =>
                 (match b64decode rest with
                  | some bs => some ((v1 * 4 + v2 / 16) :: (v2 % 16 * 16 + v3 / 4) ::
                      (v3 % 4 * 64 + v4) :: bs)
                  | none => none)
               | none => none)
          | none => none)
     | _, _ => none)
  | _ => none

/-- UTF-8 decoding restricted to ASCII bytes (the only byte strings decoded
by the proxy are ASCII, see the module docstring above). -/
def asciiDecode : List Nat → Option (List Char)
  | [] => some []
  | b :: bs =>
      if b < 128 then
        (match asciiDecode bs with
         | some cs => some (Char.ofNat b :: cs)
         | none => none)
      else none

/-- The compound-state encoding of `handle_authorize` (source lines
165-181): URL-unquote the incoming `state` and `redirect_uri`, JSON-dump
the two-field dict, UTF-8-encode, base64url-encode. -/
def encode_compound_state (state redirect_uri : String) : String :=
  (b64encode ((jsonDumpsCompound (unquote state.data)
      (unquote redirect_uri.data)).map Char.toNat)).asString

/-- Strip an expected literal prefix. -/
def dropLit : List Char → List Char → Option (List Char)
  | [], cs => some cs
  | _ :: _, [] => none
  | p :: ps, c :: cs => if c = p then dropLit ps cs else none

/-- Prepend a character to the parsed content of a string-body parse. -/
def consFst (c : Char) : Option (List Char × List Char) → Option (List Char × List Char)
  | some (s, r) => some (c :: s, r)
  | none => none

/-- Parser state for a JSON string body: scanning normally, just after a
backslash, collecting the four hex digits of a `\uXXXX` unit, or expecting
the `\uXXXX` low half of a surrogate pair. -/
inductive UState where
  | normal : UState
  | esc : UState
  | hex : Nat → Nat → UState
  | hiSlash : Nat → UState
  | hiU : Nat → UState
  | hiHex : Nat → Nat → Nat → UState

/-- Parse a JSON string body up to and including its closing quote,
returning the decoded content and the rest of the input, one character at a
time.  Surrogate pairs are recombined; lone surrogates are rejected (Python
would build a non-scalar string there, which never arises from serializing
scalar strings). -/
def unescSM : List Char → UState → Option (List Char × List Char)
  | [], _ => none
  | c :: cs, .normal =>
      if c = '"' then some ([], cs)
      else if c = '\\' then unescSM cs .esc
      else if c.toNat < 0x20 then none
      else consFst c (unescSM cs .normal)
  | c :: cs, .esc =>
      if c = 'u' then unescSM cs (.hex 0 0)
      else if c = '"' then consFst '"' (unescSM cs .normal)
      else if c = '\\' then consFst '\\' (unescSM cs .normal)
      else if c = '/' then consFst '/' (unescSM cs .normal)
      else if c = 'b' then consFst '\x08' (unescSM cs .normal)
      else if c = 'f' then consFst '\x0c' (unescSM cs .normal)
      else if c = 'n' then consFst '\n' (unescSM cs .normal)
      else if c = 'r' then consFst '\r' (unescSM cs .normal)
      else if c = 't' then consFst '\t' (unescSM cs .normal)
      else none
  | c :: cs, .hex acc got =>
      (match hexVal? c with
       | none => none
       | some x =>
         if got = 3 then
           if 0xd800 ≤ acc * 16 + x ∧ acc * 16 + x ≤ 0xdbff then
             unescSM cs (.hiSlash (acc * 16 + x))
           else if 0xdc00 ≤ acc * 16 + x ∧ acc * 16 + x ≤ 0xdfff then none
           else consFst (Char.ofNat (acc * 16 + x)) (unescSM cs .normal)
         else unescSM cs (.hex (acc * 16 + x) (got + 1)))
  | c :: cs, .hiSlash hi => if c = '\\' then unescSM cs (.hiU hi) else none
  | c :: cs, .hiU hi => if c = 'u' then unescSM cs (.hiHex hi 0 0) else none
  | c :: cs, .hiHex hi acc got =>
      (match hexVal? c with
       | none => none
       | some y =>
         if got = 3 then
           if 0xdc00 ≤ acc * 16 + y ∧ acc * 16 + y ≤ 0xdfff then
             consFst (Char.ofNat ((hi - 0xd800) * 0x400 + (acc * 16 + y - 0xdc00) + 0x10000))
               (unescSM cs .normal)
           else none
         else unescSM cs (.hiHex hi (acc * 16 + y) (got + 1)))

/-- Parse a JSON string body from its opening state. -/
def unesc (cs : List Char) : Option (List Char × List Char) := unescSM cs .normal

/-- `json.loads` of the canonical compound-state serialization followed by
the `.get('state', '')` and `.get('redirect_uri', '')` lookups of
`handle_callback`. -/
def parseCompound (cs : List Char) : Option (String × String) :=
  match dropLit "\x7b\"state\": \"".data cs with
  | none => none
  | some cs1 =>
    match unesc cs1 with
    | none => none
    | some (sval, cs2) =>
      match dropLit ", \"redirect_uri\": \"".data cs2 with
      | none => none
      | some cs3 =>
        match unesc cs3 with
        | none => none
        | some (rval, cs4) =>
          if cs4 = "\x7d".data then some (sval.asString, rval.asString) else none

/-- The state-decoding chain of `handle_callback` (source lines 218-235):
URL-unquote, repair spaces back to `+`, base64url-decode, UTF-8-decode,
JSON-parse, extract the two fields.  `none` models the paths on which the
Python code raises (caught at line 240) or reports a missing
redirect_uri. -/
def callback_decode_state (encoded_state : String) : Option (String × String) :=
  match b64decode ((unquote encoded_state.data).map
      (fun c => if c = ' ' then '+' else c)) with
  | none => none
  | some bytes =>
    match asciiDecode bytes with
    | none => none
    | some js => parseCompound js

end McpProxy

namespace McpProxy

/-- `hexVal?` inverts `hexDigitChar` on digit values. -/
theorem hexVal?_hexDigitChar : ∀ d, d < 16 → hexVal? (hexDigitChar d) = some d := by
  decide

/-- A backslash in normal scanning enters escape state. -/
theorem unescSM_normal_backslash (cs : List Char) :
    unescSM ('\\' :: cs) .normal = unescSM cs .esc := by
  simp [unescSM]

/-- A `u` after a backslash enters hex-collection state. -/
theorem unescSM_esc_u (cs : List Char) :
    unescSM ('u' :: cs) .esc = unescSM cs (.hex 0 0) := by
  simp [unescSM]

/-- A backslash after a high surrogate unit. -/
theorem unescSM_hiSlash_backslash (hi : Nat) (cs : List Char) :
    unescSM ('\\' :: cs) (.hiSlash hi) = unescSM cs (.hiU hi) := by
  simp [unescSM]

/-- A `u` completing the low-surrogate escape opener. -/
theorem unescSM_hiU_u (hi : Nat) (cs : List Char) :
    unescSM ('u' :: cs) (.hiU hi) = unescSM cs (.hiHex hi 0 0) := by
  simp [unescSM]

/-- Stepping the hex-collection state over four digit characters. -/
theorem unescSM_hex_run (d1 d2 d3 d4 : Char) (x1 x2 x3 x4 : Nat)
    (h1 : hexVal? d1 = some x1) (h2 : hexVal? d2 = some x2)
    (h3 : hexVal? d3 = some x3) (h4 : hexVal? d4 = some x4) (rest : List Char) :
    unescSM (d1 :: d2 :: d3 :: d4 :: rest) (.hex 0 0) =
      (if 0xd800 ≤ ((x1 * 16 + x2) * 16 + x3) * 16 + x4 ∧
          ((x1 * 16 + x2) * 16 + x3) * 16 + x4 ≤ 0xdbff then
         unescSM rest (.hiSlash (((x1 * 16 + x2) * 16 + x3) * 16 + x4))
       else if 0xdc00 ≤ ((x1 * 16 + x2) * 16 + x3) * 16 + x4 ∧
          ((x1 * 16 + x2) * 16 + x3) * 16 + x4 ≤ 0xdfff then none
       else consFst (Char.ofNat (((x1 * 16 + x2) * 16 + x3) * 16 + x4))
           (unescSM rest .normal)) := by
  simp [unescSM, h1, h2, h3, h4]

/-- Stepping the low-surrogate hex state over four digit characters. -/
theorem unescSM_hiHex_run (hi : Nat) (d1 d2 d3 d4 : Char) (x1 x2 x3 x4 : Nat)
    (h1 : hexVal? d1 = some x1) (h2 : hexVal? d2 = some x2)
    (h3 : hexVal? d3 = some x3) (h4 : hexVal? d4 = some x4) (rest : List Char) :
    unescSM (d1 :: d2 :: d3 :: d4 :: rest) (.hiHex hi 0 0) =
      (if 0xdc00 ≤ ((x1 * 16 + x2) * 16 + x3) * 16 + x4 ∧
          ((x1 * 16 + x2) * 16 + x3) * 16 + x4 ≤ 0xdfff then
         consFst (Char.ofNat ((hi - 0xd800) * 0x400 +
             (((x1 * 16 + x2) * 16 + x3) * 16 + x4 - 0xdc00) + 0x10000))
           (unescSM rest .normal)
       else none) := by
  simp [unescSM, h1, h2, h3, h4]

/-- Parsing `\uXXXX` for a non-surrogate code unit recovers its character. -/
theorem unesc_u (n : Nat) (hn : n < 0x10000) (hlo : ¬ (0xd800 ≤ n ∧ n ≤ 0xdfff))
    (rest : List Char) :
    unescSM ('\\' :: 'u' :: (hex4 n ++ rest)) .normal =
      consFst (Char.ofNat n) (unescSM rest .normal) := by
  have e1 := hexVal?_hexDigitChar (n / 4096 % 16) (by omega)
  have e2 := hexVal?_hexDigitChar (n / 256 % 16) (by omega)
  have e3 := hexVal?_hexDigitChar (n / 16 % 16) (by omega)
  have e4 := hexVal?_hexDigitChar (n % 16) (by omega)
  have hv : ((n / 4096 % 16 * 16 + n / 256 % 16) * 16 + n / 16 % 16) * 16 + n % 16 = n := by
    omega
  rw [unescSM_normal_backslash, unescSM_esc_u,
    show hex4 n ++ rest = hexDigitChar (n / 4096 % 16) :: hexDigitChar (n / 256 % 16) ::
      hexDigitChar (n / 16 % 16) :: hexDigitChar (n % 16) :: rest from by simp [hex4],
    unescSM_hex_run _ _ _ _ _ _ _ _ e1 e2 e3 e4, hv,
    if_neg (by omega), if_neg (by omega)]

/-- Parsing a `\uXXXX\uXXXX` surrogate pair recovers the supplementary
character. -/
theorem unesc_u_pair (n : Nat) (hge : 0x10000 ≤ n) (hlt : n < 0x110000)
    (rest : List Char) :
    unescSM (('\\' :: 'u' :: hex4 (0xd800 + (n - 0x10000) / 0x400)) ++
        (('\\' :: 'u' :: hex4 (0xdc00 + (n - 0x10000) % 0x400)) ++ rest)) .normal =
      consFst (Char.ofNat n) (unescSM rest .normal) := by
  have ea1 := hexVal?_hexDigitChar ((0xd800 + (n - 0x10000) / 0x400) / 4096 % 16) (by omega)
  have ea2 := hexVal?_hexDigitChar ((0xd800 + (n - 0x10000) / 0x400) / 256 % 16) (by omega)
  have ea3 := hexVal?_hexDigitChar ((0xd800 + (n - 0x10000) / 0x400) / 16 % 16) (by omega)
  have ea4 := hexVal?_hexDigitChar ((0xd800 + (n - 0x10000) / 0x400) % 16) (by omega)
  have eb1 := hexVal?_hexDigitChar ((0xdc00 + (n - 0x10000) % 0x400) / 4096 % 16) (by omega)
  have eb2 := hexVal?_hexDigitChar ((0xdc00 + (n - 0x10000) % 0x400) / 256 % 16) (by omega)
  have eb3 := hexVal?_hexDigitChar ((0xdc00 + (n - 0x10000) % 0x400) / 16 % 16) (by omega)
  have eb4 := hexVal?_hexDigitChar ((0xdc00 + (n - 0x10000) % 0x400) % 16) (by omega)
  have hva : (((0xd800 + (n - 0x10000) / 0x400) / 4096 % 16 * 16 +
      (0xd800 + (n - 0x10000) / 0x400) / 256 % 16) * 16 +
      (0xd800 + (n - 0x10000) / 0x400) / 16 % 16) * 16 +
      (0xd800 + (n - 0x10000) / 0x400) % 16 = 0xd800 + (n - 0x10000) / 0x400 := by
    omega
  have hvb : (((0xdc00 + (n - 0x10000) % 0x400) / 4096 % 16 * 16 +
      (0xdc00 + (n - 0x10000) % 0x400) / 256 % 16) * 16 +
      (0xdc00 + (n - 0x10000) % 0x400) / 16 % 16) * 16 +
      (0xdc00 + (n - 0x10000) % 0x400) % 16 = 0xdc00 + (n - 0x10000) % 0x400 := by
    omega
  have hcomb : (0xd800 + (n - 0x10000) / 0x400 - 0xd800) * 0x400 +
      (0xdc00 + (n - 0x10000) % 0x400 - 0xdc00) + 0x10000 = n := by
    omega
  have hshape : ('\\' :: 'u' :: hex4 (0xd800 + (n - 0x10000) / 0x400)) ++
      (('\\' :: 'u' :: hex4 (0xdc00 + (n - 0x10000) % 0x400)) ++ rest) =
      '\\' :: 'u' :: (hex4 (0xd800 + (n - 0x10000) / 0x400) ++
        ('\\' :: 'u' :: (hex4 (0xdc00 + (n - 0x10000) % 0x400) ++ rest))) := by
    simp
  rw [hshape]
  rw [unescSM_normal_backslash, unescSM_esc_u,
    show ∀ t, hex4 (0xd800 + (n - 0x10000) / 0x400) ++ t =
      hexDigitChar ((0xd800 + (n - 0x10000) / 0x400) / 4096 % 16) ::
      hexDigitChar ((0xd800 + (n - 0x10000) / 0x400) / 256 % 16) ::
      hexDigitChar ((0xd800 + (n - 0x10000) / 0x400) / 16 % 16) ::
      hexDigitChar ((0xd800 + (n - 0x10000) / 0x400) % 16) :: t from fun t => by simp [hex4],
    unescSM_hex_run _ _ _ _ _ _ _ _ ea1 ea2 ea3 ea4, hva,
    if_pos (by omega)]
  rw [unescSM_hiSlash_backslash, unescSM_hiU_u,
    show ∀ t, hex4 (0xdc00 + (n - 0x10000) % 0x400) ++ t =
      hexDigitChar ((0xdc00 + (n - 0x10000) % 0x400) / 4096 % 16) ::
      hexDigitChar ((0xdc00 + (n - 0x10000) % 0x400) / 256 % 16) ::
      hexDigitChar ((0xdc00 + (n - 0x10000) % 0x400) / 16 % 16) ::
      hexDigitChar ((0xdc00 + (n - 0x10000) % 0x400) % 16) :: t from fun t => by simp [hex4],
    unescSM_hiHex_run _ _ _ _ _ _ _ _ _ eb1 eb2 eb3 eb4, hvb,
    if_pos (by omega), hcomb]

/-- One escaped character parses back to itself. -/
theorem unesc_escChar (c : Char) (rest : List Char) :
    unesc (escChar c ++ rest) = consFst c (unesc rest) := by
  show unescSM (escChar c ++ rest) .normal = consFst c (unescSM rest .normal)
  by_cases h1 : c = '"'
  · subst h1; simp [escChar, unescSM]
  by_cases h2 : c = '\\'
  · subst h2; simp [escChar, unescSM]
  by_cases h3 : c = '\x08'
  · subst h3; simp [escChar, unescSM]
  by_cases h4 : c = '\x0c'
  · subst h4; simp [escChar, unescSM]
  by_cases h5 : c = '\n'
  · subst h5; simp [escChar, unescSM]
  by_cases h6 : c = '\r'
  · subst h6; simp [escChar, unescSM]
  by_cases h7 : c = '\t'
  · subst h7; simp [escChar, unescSM]
  by_cases h8 : c.toNat < 0x20 ∨ 0x7e < c.toNat
  · rw [show escChar c =
        (if c.toNat < 0x10000 then '\\' :: 'u' :: hex4 c.toNat
         else ('\\' :: 'u' :: hex4 (0xd800 + (c.toNat - 0x10000) / 0x400)) ++
           ('\\' :: 'u' :: hex4 (0xdc00 + (c.toNat - 0x10000) % 0x400))) from by
      simp [escChar, h1, h2, h3, h4, h5, h6, h7, h8]]
    have hval : c.toNat = c.val.toNat := rfl
    by_cases h9 : c.toNat < 0x10000
    · rw [if_pos h9]
      have hsur : ¬ (0xd800 ≤ c.toNat ∧ c.toNat ≤ 0xdfff) := by
        rcases c.valid with h | ⟨ha, _⟩
        · rw [hval]; omega
        · rw [hval]; omega
      rw [show ('\\' :: 'u' :: hex4 c.toNat) ++ rest =
          '\\' :: 'u' :: (hex4 c.toNat ++ rest) from by simp]
      rw [unesc_u c.toNat h9 hsur rest, Char.ofNat_toNat]
    · rw [if_neg h9]
      have hlt : c.toNat < 0x110000 := by
        rcases c.valid with h | ⟨_, hb⟩
        · rw [hval]; omega
        · rw [hval]; omega
      rw [List.append_assoc, unesc_u_pair c.toNat (by omega) hlt rest, Char.ofNat_toNat]
  · rw [show escChar c = [c] from by simp [escChar, h1, h2, h3, h4, h5, h6, h7, h8]]
    have hge : ¬ c.toNat < 0x20 := by omega
    simp [unescSM, h1, h2, hge]

/-- A whole escaped string body followed by its closing quote parses back
to the original content. -/
theorem unesc_escape (s rest : List Char) :
    unesc (escape s ++ ('"' :: rest)) = some (s, rest) := by
  induction s with
  | nil => rfl
  | cons c s ih =>
    rw [show escape (c :: s) = escChar c ++ escape s from by simp [escape],
      List.append_assoc, unesc_escChar, ih]
    rfl

/-- Stripping a literal prefix from itself-plus-rest yields the rest. -/
theorem dropLit_append (p cs : List Char) : dropLit p (p ++ cs) = some cs := by
  induction p with
  | nil => rfl
  | cons a p ih => simp [dropLit, ih]

/-- Parsing the canonical serialization of the compound state recovers both
fields. -/
theorem parseCompound_dumps (s r : List Char) :
    parseCompound (jsonDumpsCompound s r) = some (s.asString, r.asString) := by
  unfold parseCompound jsonDumpsCompound
  have harg : "\x7b\"state\": \"".data ++ escape s ++
      "\", \"redirect_uri\": \"".data ++ escape r ++ "\"\x7d".data =
      "\x7b\"state\": \"".data ++ (escape s ++
        ('"' :: (", \"redirect_uri\": \"".data ++ (escape r ++ ('"' :: "\x7d".data))))) := by
    simp
  rw [harg, dropLit_append]
  simp only [unesc_escape, dropLit_append]
  simp
/-- `b64Val?` inverts `b64Char` on sextets. -/
theorem b64Val?_b64Char : ∀ v, v < 64 → b64Val? (b64Char v) = some v := by
  decide

/-- Alphabet characters are not padding. -/
theorem b64Char_ne_eqsign : ∀ v, v < 64 → ¬ b64Char v = '=' := by
  decide

/-- Alphabet characters are not percent signs. -/
theorem b64Char_ne_pct : ∀ v, v < 64 → ¬ b64Char v = '%' := by
  decide

/-- Alphabet characters are not spaces. -/
theorem b64Char_ne_space : ∀ v, v < 64 → ¬ b64Char v = ' ' := by
  decide

/-- Base64url decoding inverts encoding on byte lists. -/
theorem b64decode_b64encode (bs : List Nat) (h : ∀ b ∈ bs, b < 256) :
    b64decode (b64encode bs) = some bs := by
  have key : ∀ n (bs : List Nat), bs.length ≤ n → (∀ b ∈ bs, b < 256) →
      b64decode (b64encode bs) = some bs := by
    intro n
    induction n with
    | zero =>
      intro bs hlen h
      have hbs : bs = [] := List.eq_nil_of_length_eq_zero (Nat.le_zero.mp hlen)
      subst hbs; rfl
    | succ n ih =>
      intro bs hlen h
      rcases bs with _ | ⟨a, bs⟩
      · rfl
      rcases bs with _ | ⟨b, bs⟩
      · have ha : a < 256 := h a (by simp)
        simp only [b64encode, b64decode]
        rw [b64Val?_b64Char (a / 4) (by omega), b64Val?_b64Char (a % 4 * 16) (by omega)]
        simp only [reduceIte]
        simp
        omega
      rcases bs with _ | ⟨c, rest⟩
      · have ha : a < 256 := h a (by simp)
        have hb : b < 256 := h b (by simp)
        simp only [b64encode, b64decode]
        rw [b64Val?_b64Char (a / 4) (by omega),
          b64Val?_b64Char (a % 4 * 16 + b / 16) (by omega)]
        simp only [if_neg (b64Char_ne_eqsign (b % 16 * 4) (by omega)),
          b64Val?_b64Char (b % 16 * 4) (by omega)]
        simp
        omega
      · have ha : a < 256 := h a (by simp)
        have hb : b < 256 := h b (by simp)
        have hc : c < 256 := h c (by simp)
        have hrest : b64decode (b64encode rest) = some rest := by
          refine ih rest ?_ ?_
          · simp at hlen; omega
          · intro x hx; exact h x (by simp [hx])
        simp only [b64encode, b64decode]
        rw [b64Val?_b64Char (a / 4) (by omega),
          b64Val?_b64Char (a % 4 * 16 + b / 16) (by omega)]
        simp only [if_neg (b64Char_ne_eqsign (b % 16 * 4 + c / 64) (by omega)),
          b64Val?_b64Char (b % 16 * 4 + c / 64) (by omega),
          if_neg (b64Char_ne_eqsign (c % 64) (by omega)),
          b64Val?_b64Char (c % 64) (by omega), hrest]
        simp
        omega
  exact key bs.length bs le_rfl h

/-- Every character of a base64url encoding is padding or an alphabet
character. -/
theorem b64encode_chars (bs : List Nat) (h : ∀ b ∈ bs, b < 256) :
    ∀ x ∈ b64encode bs, x = '=' ∨ ∃ v, v < 64 ∧ x = b64Char v := by
  have key : ∀ n (bs : List Nat), bs.length ≤ n → (∀ b ∈ bs, b < 256) →
      ∀ x ∈ b64encode bs, x = '=' ∨ ∃ v, v < 64 ∧ x = b64Char v := by
    intro n
    induction n with
    | zero =>
      intro bs hlen h x hx
      have hbs : bs = [] := List.eq_nil_of_length_eq_zero (Nat.le_zero.mp hlen)
      subst hbs; simp [b64encode] at hx
    | succ n ih =>
      intro bs hlen h x hx
      rcases bs with _ | ⟨a, bs⟩
      · simp [b64encode] at hx
      rcases bs with _ | ⟨b, bs⟩
      · have ha : a < 256 := h a (by simp)
        simp only [b64encode] at hx
        simp at hx
        rcases hx with hx | hx | hx
        · exact Or.inr ⟨a / 4, by omega, hx⟩
        · exact Or.inr ⟨a % 4 * 16, by omega, hx⟩
        · exact Or.inl hx
      rcases bs with _ | ⟨c, rest⟩
      · have ha : a < 256 := h a (by simp)
        have hb : b < 256 := h b (by simp)
        simp only [b64encode] at hx
        simp at hx
        rcases hx with hx | hx | hx | hx
        · exact Or.inr ⟨a / 4, by omega, hx⟩
        · exact Or.inr ⟨a % 4 * 16 + b / 16, by omega, hx⟩
        · exact Or.inr ⟨b % 16 * 4, by omega, hx⟩
        · exact Or.inl hx
      · have ha : a < 256 := h a (by simp)
        have hb : b < 256 := h b (by simp)
        have hc : c < 256 := h c (by simp)
        simp only [b64encode] at hx
        simp at hx
        rcases hx with hx | hx | hx | hx | hx
        · exact Or.inr ⟨a / 4, by omega, hx⟩
        · exact Or.inr ⟨a % 4 * 16 + b / 16, by omega, hx⟩
        · exact Or.inr ⟨b % 16 * 4 + c / 64, by omega, hx⟩
        · exact Or.inr ⟨c % 64, by omega, hx⟩
        · refine ih rest ?_ ?_ x hx
          · simp at hlen; omega
          · intro y hy; exact h y (by simp [hy])
  exact key bs.length bs le_rfl h

/-- UTF-8 decoding of the code points of an ASCII string recovers it. -/
theorem asciiDecode_map (l : List Char) (h : ∀ c ∈ l, c.toNat < 128) :
    asciiDecode (l.map Char.toNat) = some l := by
  induction l with
  | nil => rfl
  | cons c cs ih =>
    have hc : c.toNat < 128 := h c (by simp)
    have ihc := ih (fun x hx => h x (by simp [hx]))
    simp only [List.map_cons, asciiDecode, if_pos hc, ihc, Char.ofNat_toNat]

/-- Hex digit characters are ASCII. -/
theorem hexDigitChar_ascii : ∀ d, d < 16 → (hexDigitChar d).toNat < 128 := by
  decide

set_option maxRecDepth 4096 in
/-- Every character emitted by the JSON escaper is ASCII. -/
theorem escChar_ascii (c : Char) : ∀ x ∈ escChar c, x.toNat < 128 := by
  intro x hx
  unfold escChar at hx
  split_ifs at hx with h1 h2 h3 h4 h5 h6 h7 h8 h9
  · simp at hx
    rcases hx with rfl | rfl
    · decide
    · decide
  · simp at hx
    subst hx
    decide
  · simp at hx
    rcases hx with rfl | rfl
    · decide
    · decide
  · simp at hx
    rcases hx with rfl | rfl
    · decide
    · decide
  · simp at hx
    rcases hx with rfl | rfl
    · decide
    · decide
  · simp at hx
    rcases hx with rfl | rfl
    · decide
    · decide
  · simp at hx
    rcases hx with rfl | rfl
    · decide
    · decide
  · simp [hex4] at hx
    rcases hx with rfl | rfl | rfl | rfl | rfl | rfl
    · decide
    · decide
    · exact hexDigitChar_ascii _ (by omega)
    · exact hexDigitChar_ascii _ (by omega)
    · exact hexDigitChar_ascii _ (by omega)
    · exact hexDigitChar_ascii _ (by omega)
  · rw [List.mem_append] at hx
    have hgrp : ∀ (m : Nat) (y : Char), y ∈ '\\' :: 'u' :: hex4 m → y.toNat < 128 := by
      intro m y hy
      simp [hex4] at hy
      rcases hy with rfl | rfl | rfl | rfl | rfl | rfl
      · decide
      · decide
      · exact hexDigitChar_ascii _ (by omega)
      · exact hexDigitChar_ascii _ (by omega)
      · exact hexDigitChar_ascii _ (by omega)
      · exact hexDigitChar_ascii _ (by omega)
    rcases hx with hx | hx
    · exact hgrp _ x hx
    · exact hgrp _ x hx
  · simp at hx; subst hx
    push_neg at h8
    omega

/-- Every character of an escaped string body is ASCII. -/
theorem escape_ascii (l : List Char) : ∀ x ∈ escape l, x.toNat < 128 := by
  intro x hx
  simp only [escape, List.mem_flatMap] at hx
  rcases hx with ⟨c, _, hx⟩
  exact escChar_ascii c x hx

/-- The compound-state JSON serialization is pure ASCII. -/
theorem dumps_ascii (s r : List Char) :
    ∀ x ∈ jsonDumpsCompound s r, x.toNat < 128 := by
  intro x hx
  unfold jsonDumpsCompound at hx
  simp only [List.append_assoc, List.mem_append] at hx
  rcases hx with hx | hx | hx | hx | hx
  · have hall : ∀ y ∈ "\x7b\"state\": \"".data, y.toNat < 128 := by decide
    exact hall x hx
  · exact escape_ascii s x hx
  · have hall : ∀ y ∈ "\", \"redirect_uri\": \"".data, y.toNat < 128 := by decide
    exact hall x hx
  · exact escape_ascii r x hx
  · have hall : ∀ y ∈ "\"\x7d".data, y.toNat < 128 := by decide
    exact hall x hx

/-- `unquote` is the identity on percent-free strings. -/
theorem unquote_of_no_pct (l : List Char) (h : ∀ c ∈ l, ¬ c = '%') :
    unquote l = l := by
  unfold unquote
  induction l with
  | nil => rfl
  | cons c cs ih =>
    have hc := h c (by simp)
    simp only [unquoteAux, if_neg hc]
    rw [ih (fun x hx => h x (by simp [hx]))]

/-- The space-to-plus repair is the identity on space-free strings. -/
theorem map_keep_of_no_space (l : List Char) (h : ∀ c ∈ l, ¬ c = ' ') :
    l.map (fun c => if c = ' ' then '+' else c) = l := by
  induction l with
  | nil => rfl
  | cons c cs ih =>
    have hc := h c (by simp)
    simp only [List.map_cons, if_neg hc]
    rw [ih (fun x hx => h x (by simp [hx]))]

/-- The data of a packed character list is the list itself. -/
theorem data_asString (l : List Char) : (l.asString).data = l := rfl

/-- The decoding chain of `handle_callback` inverts the compound-state
encoding of `handle_authorize`, recovering the URL-unquoted state and
redirect_uri. -/
theorem callback_decode_encode (st ru : String) :
    callback_decode_state (encode_compound_state st ru) =
      some (unquoteStr st, unquoteStr ru) := by
  unfold callback_decode_state encode_compound_state
  have hascii := dumps_ascii (unquote st.data) (unquote ru.data)
  have hbytes : ∀ b ∈ (jsonDumpsCompound (unquote st.data) (unquote ru.data)).map Char.toNat,
      b < 256 := by
    intro b hb
    simp only [List.mem_map] at hb
    rcases hb with ⟨c, hc, rfl⟩
    have := hascii c hc
    omega
  have hchars := b64encode_chars _ hbytes
  have hnp : ∀ c ∈ b64encode ((jsonDumpsCompound (unquote st.data)
      (unquote ru.data)).map Char.toNat), ¬ c = '%' := by
    intro c hc
    rcases hchars c hc with rfl | ⟨v, hv, rfl⟩
    · decide
    · exact b64Char_ne_pct v hv
  have hns : ∀ c ∈ b64encode ((jsonDumpsCompound (unquote st.data)
      (unquote ru.data)).map Char.toNat), ¬ c = ' ' := by
    intro c hc
    rcases hchars c hc with rfl | ⟨v, hv, rfl⟩
    · decide
    · exact b64Char_ne_space v hv
  rw [data_asString, unquote_of_no_pct _ hnp, map_keep_of_no_space _ hns,
    b64decode_b64encode _ hbytes]
  simp only [asciiDecode_map _ hascii, parseCompound_dumps]
  rfl

end McpProxy

namespace McpProxy

/-!
### Request handlers

Python dicts of string parameters are modelled as association lists with
Python 3.7 semantics: assignment updates in place, insertion appends.
-/

/-- `d[k] = v`: replace the value in place when the key exists, append
otherwise (Python 3.7 dict assignment; keys of a Python dict are unique). -/
def dictSet : List (String × String) → String → String → List (String × String)
  | [], k, v => [(k, v)]
  | (k1, v1) :: d, k, v =>
      if k1 = k then (k, v) :: d else (k1, v1) :: dictSet d k v

/-- `d.pop(k, None)`: remove the key. -/
def dictPop (d : List (String × String)) (k : String) : List (String × String) :=
  d.filter (fun kv => kv.1 ≠ k)

/-- The parts of a proxy Lambda event (ALB or API Gateway v2) the handlers
read. -/
structure ProxyEvent where
  path : String
  httpMethod : String
  queryStringParameters : List (String × String)
  headers : List (String × String)
  body : String
  isBase64Encoded : Bool
  ctxDomain : String
  ctxStage : String

/-- The environment configuration of the proxy Lambda (source lines 18-22,
343).  `GATEWAY_AUTH` is `none` when the variable is unset. -/
structure ProxyEnv where
  GATEWAY_URL : String
  COGNITO_DOMAIN : String
  CLIENT_ID : String
  CLIENT_SECRET : String
  GATEWAY_AUTH : Option String

/-- Python `a or b` on two optional strings (falsy: `None` and `""`). -/
def pyOrStr : Option String → Option String → Option String
  | some s, b => if s = "" then b else some s
  | none, b => b

/-- The `requestContext` fallback of `get_api_url` (source lines 447-454). -/
def get_api_url_fallback (ev : ProxyEvent) : String :=
  if ev.ctxDomain ≠ "" ∧ ev.ctxStage ≠ "" ∧ ev.ctxStage ≠ "$default" then
    "https://" ++ ev.ctxDomain ++ "/" ++ ev.ctxStage
  else if ev.ctxDomain ≠ "" then "https://" ++ ev.ctxDomain
  else "http://localhost"

/-- `get_api_url` (source lines 437-454): the Host header when truthy,
otherwise the API-Gateway request context. -/
def get_api_url (ev : ProxyEvent) : String :=
  match pyOrStr (ev.headers.lookup "host") (ev.headers.lookup "Host") with
  | some h => if h ≠ "" then "https://" ++ h else get_api_url_fallback ev
  | none => get_api_url_fallback ev

/-- `s.replace(a, b)` for single characters. -/
def strReplaceChar (s : String) (a b : Char) : String :=
  (s.data.map (fun c => if c = a then b else c)).asString

/-- The parameter transformation of `handle_authorize` (source lines
139-191): drop `resource`, fix `scope`, override `client_id`, and when a
redirect_uri is present (truthy) pack state and redirect_uri into the
compound state and point `redirect_uri` at this proxy's `/callback`.  The
resulting dict is what line 192 urlencodes into the Cognito redirect.
`authorize_params_base` is the dict after the first three steps (lines
139-156). -/
def authorize_params_base (env : ProxyEnv) (ev : ProxyEvent) :
    List (String × String) :=
  dictSet
    (match (if ((ev.queryStringParameters.lookup "resource").isSome : Bool) then
        dictPop ev.queryStringParameters "resource"
      else ev.queryStringParameters).lookup "scope" with
     | some sc =>
       dictSet (if ((ev.queryStringParameters.lookup "resource").isSome : Bool) then
           dictPop ev.queryStringParameters "resource"
         else ev.queryStringParameters) "scope" (strReplaceChar sc '+' ' ')
     | none => (if ((ev.queryStringParameters.lookup "resource").isSome : Bool) then
           dictPop ev.queryStringParameters "resource"
         else ev.queryStringParameters))
    "client_id" env.CLIENT_ID

/-- The rest of `handle_authorize` (source lines 158-191): encode the
compound state and rewrite `redirect_uri` when the original one is
truthy. -/
def handle_authorize_params (env : ProxyEnv) (ev : ProxyEvent) :
    List (String × String) :=
  if (((authorize_params_base env ev).lookup "redirect_uri").getD "") ≠ "" then
    dictSet (dictSet (authorize_params_base env ev) "state"
        (encode_compound_state
          (((authorize_params_base env ev).lookup "state").getD "")
          (((authorize_params_base env ev).lookup "redirect_uri").getD "")))
      "redirect_uri" (get_api_url ev ++ "/callback")
  else authorize_params_base env ev

/-- The parameter transformation of `handle_token` (source lines 261-274),
starting from the form parameters parsed out of the POST body: override
`client_id`, add `client_secret` when configured, and rewrite a present
`redirect_uri` to this proxy's `/callback`.  The resulting dict is what
line 274 urlencodes into the Cognito token request. -/
def handle_token_params (env : ProxyEnv) (api_url : String)
    (params0 : List (String × String)) : List (String × String) :=
  let params1 := dictSet params0 "client_id" env.CLIENT_ID
  let params2 := if env.CLIENT_SECRET ≠ "" then
      dictSet params1 "client_secret" env.CLIENT_SECRET
    else params1
  if (params2.lookup "redirect_uri").isSome then
    dictSet params2 "redirect_uri" (api_url ++ "/callback")
  else params2

/-- Looking up the key just set finds the new value. -/
theorem lookup_dictSet_self (d : List (String × String)) (k v : String) :
    (dictSet d k v).lookup k = some v := by
  induction d with
  | nil => simp [dictSet, List.lookup]
  | cons kv d ih =>
    obtain ⟨k1, v1⟩ := kv
    by_cases hk : k1 = k
    · simp [dictSet, hk, List.lookup]
    · have hke : (k == k1) = false := by
        simp only [beq_eq_false_iff_ne]
        exact fun hc => hk hc.symm
      simp only [dictSet, if_neg hk, List.lookup, hke]
      exact ih

/-- Setting one key leaves lookups of other keys unchanged. -/
theorem lookup_dictSet_ne (d : List (String × String)) (k v k2 : String)
    (h : ¬ k2 = k) :
    (dictSet d k v).lookup k2 = d.lookup k2 := by
  induction d with
  | nil =>
    have h1 : (k2 == k) = false := by
      simp only [beq_eq_false_iff_ne]
      exact h
    simp [dictSet, List.lookup, h1]
  | cons kv d ih =>
    obtain ⟨k1, v1⟩ := kv
    by_cases hk : k1 = k
    · subst hk
      have h1 : (k2 == k1) = false := by
        simp only [beq_eq_false_iff_ne]
        exact h
      simp [dictSet, List.lookup, h1]
    · simp only [dictSet, if_neg hk, List.lookup]
      cases hkk : (k2 == k1)
      · exact ih
      · rfl

/-- Dropping one key leaves lookups of other keys unchanged. -/
theorem lookup_dictPop_ne (d : List (String × String)) (k k2 : String)
    (h : ¬ k2 = k) :
    (dictPop d k).lookup k2 = d.lookup k2 := by
  unfold dictPop
  induction d with
  | nil => rfl
  | cons kv d ih =>
    obtain ⟨k1, v1⟩ := kv
    by_cases hk : k1 = k
    · subst hk
      have h1 : (k2 == k1) = false := by
        simp only [beq_eq_false_iff_ne]
        exact h
      simp [List.filter_cons, List.lookup, h1]
      simpa using ih
    · have hd : (decide ¬ k1 = k) = true := by simp [hk]
      rw [List.filter_cons, if_pos hd, List.lookup, List.lookup]
      cases hkk : (k2 == k1)
      · exact ih
      · rfl

end McpProxy

namespace McpProxy

/-- Lookups of keys other than `resource`, `scope` and `client_id` pass
through the first three steps of `handle_authorize` unchanged. -/
theorem base_lookup_ne (env : ProxyEnv) (ev : ProxyEvent) (k2 : String)
    (h2r : ¬ k2 = "resource") (h2s : ¬ k2 = "scope") (h2c : ¬ k2 = "client_id") :
    (authorize_params_base env ev).lookup k2 =
      ev.queryStringParameters.lookup k2 := by
  unfold authorize_params_base
  rw [lookup_dictSet_ne _ _ _ _ h2c]
  split
  · rw [lookup_dictSet_ne _ _ _ _ h2s]
    split
    · rw [lookup_dictPop_ne _ _ _ h2r]
    · rfl
  · split
    · rw [lookup_dictPop_ne _ _ _ h2r]
    · rfl

/-- The base transformation always pins `client_id` to the configured
value. -/
theorem base_lookup_client_id (env : ProxyEnv) (ev : ProxyEvent) :
    (authorize_params_base env ev).lookup "client_id" = some env.CLIENT_ID := by
  unfold authorize_params_base
  exact lookup_dictSet_self _ _ _

end McpProxy

/-- A concrete proxy environment for the C2 counterexample and witnesses. -/
def c2Env : McpProxy.ProxyEnv :=
  { GATEWAY_URL := "https://gw.example.com/mcp",
    COGNITO_DOMAIN := "https://cog.example.com",
    CLIENT_ID := "client-123", CLIENT_SECRET := "", GATEWAY_AUTH := none }

/-- A concrete `/authorize` event whose query string contains a
`redirect_uri` key with an empty value. -/
def c2EvEmpty : McpProxy.ProxyEvent :=
  { path := "/authorize", httpMethod := "GET",
    queryStringParameters := [("redirect_uri", "")],
    headers := [("host", "alb.example.com")], body := "",
    isBase64Encoded := false, ctxDomain := "", ctxStage := "" }

/-- Counterexample for C2 as stated: an `/authorize` request whose query
string contains `redirect_uri` (with the empty value) is forwarded with
its `redirect_uri` unchanged — the handler only rewrites a truthy
redirect_uri, so the claim's "for every request whose query string contains
a redirect_uri" fails at this input. -/
theorem c2_counterexample_empty_redirect :
    (c2EvEmpty.queryStringParameters.lookup "redirect_uri").isSome = true ∧
    (McpProxy.handle_authorize_params c2Env c2EvEmpty).lookup "redirect_uri" =
      some "" ∧
    ¬ (McpProxy.handle_authorize_params c2Env c2EvEmpty).lookup "redirect_uri" =
      some (McpProxy.get_api_url c2EvEmpty ++ "/callback") := by
  refine ⟨rfl, rfl, ?_⟩
  decide

/-- C2 (amended): the proxy rewrites `redirect_uri` to its own
`/callback` endpoint for every `/authorize` request carrying a non-empty
`redirect_uri` and for every `/token` form body carrying a `redirect_uri`
key, and overrides `client_id` with the configured `CLIENT_ID` in all
cases. -/
theorem c2_redirect_rewrite_and_client_id_override
    (env : McpProxy.ProxyEnv) (ev : McpProxy.ProxyEvent)
    (api_url : String) (tparams : List (String × String)) :
    (∀ r, ev.queryStringParameters.lookup "redirect_uri" = some r → ¬ r = "" →
      (McpProxy.handle_authorize_params env ev).lookup "redirect_uri" =
        some (McpProxy.get_api_url ev ++ "/callback")) ∧
    ((McpProxy.handle_authorize_params env ev).lookup "client_id" =
      some env.CLIENT_ID) ∧
    ((tparams.lookup "redirect_uri").isSome = true →
      (McpProxy.handle_token_params env api_url tparams).lookup "redirect_uri" =
        some (api_url ++ "/callback")) ∧
    ((McpProxy.handle_token_params env api_url tparams).lookup "client_id" =
      some env.CLIENT_ID) := by
  have hbase := McpProxy.base_lookup_ne env ev "redirect_uri"
    (by decide) (by decide) (by decide)
  refine ⟨?_, ?_, ?_, ?_⟩
  · intro r hr hne
    unfold McpProxy.handle_authorize_params
    rw [if_pos (by rw [hbase, hr]; simpa using hne)]
    exact McpProxy.lookup_dictSet_self _ _ _
  · unfold McpProxy.handle_authorize_params
    split
    · rw [McpProxy.lookup_dictSet_ne _ _ _ _ (by decide),
        McpProxy.lookup_dictSet_ne _ _ _ _ (by decide)]
      exact McpProxy.base_lookup_client_id env ev
    · exact McpProxy.base_lookup_client_id env ev
  · intro hsome
    unfold McpProxy.handle_token_params
    have h1 : ((McpProxy.dictSet tparams "client_id" env.CLIENT_ID).lookup
        "redirect_uri").isSome = true := by
      rw [McpProxy.lookup_dictSet_ne _ _ _ _ (by decide)]
      exact hsome
    split
    · rw [if_pos (by rw [McpProxy.lookup_dictSet_ne _ _ _ _ (by decide)]; exact h1)]
      exact McpProxy.lookup_dictSet_self _ _ _
    · rw [if_pos h1]
      exact McpProxy.lookup_dictSet_self _ _ _
  · unfold McpProxy.handle_token_params
    split
    · dsimp only
      split
      · rw [McpProxy.lookup_dictSet_ne _ _ _ _ (by decide),
          McpProxy.lookup_dictSet_ne _ _ _ _ (by decide)]
        exact McpProxy.lookup_dictSet_self _ _ _
      · rw [McpProxy.lookup_dictSet_ne _ _ _ _ (by decide)]
        exact McpProxy.lookup_dictSet_self _ _ _
    · dsimp only
      split
      · rw [McpProxy.lookup_dictSet_ne _ _ _ _ (by decide)]
        exact McpProxy.lookup_dictSet_self _ _ _
      · exact McpProxy.lookup_dictSet_self _ _ _

/-- A concrete `/authorize` event with a non-empty redirect_uri for the C2
and C5 witnesses. -/
def c2EvGood : McpProxy.ProxyEvent :=
  { path := "/authorize", httpMethod := "GET",
    queryStringParameters :=
      [("state", "abc"), ("redirect_uri", "http://localhost:3000/cb")],
    headers := [("host", "alb.example.com")], body := "",
    isBase64Encoded := false, ctxDomain := "", ctxStage := "" }

/-- Witness for C2 (amended): concrete authorize and token requests get
their redirect_uri rewritten to the proxy callback. -/
theorem c2_redirect_rewrite_witness :
    (c2EvGood.queryStringParameters.lookup "redirect_uri" =
      some "http://localhost:3000/cb") ∧
    ((McpProxy.handle_authorize_params c2Env c2EvGood).lookup "redirect_uri" =
      some (McpProxy.get_api_url c2EvGood ++ "/callback")) ∧
    (([(("redirect_uri" : String), ("x" : String))].lookup "redirect_uri").isSome
      = true) ∧
    ((McpProxy.handle_token_params c2Env "https://alb.example.com"
        [("redirect_uri", "x")]).lookup "redirect_uri" =
      some ("https://alb.example.com" ++ "/callback")) := by
  have h := c2_redirect_rewrite_and_client_id_override c2Env c2EvGood
    "https://alb.example.com" [("redirect_uri", "x")]
  exact ⟨rfl, h.1 "http://localhost:3000/cb" rfl (by decide), rfl, h.2.2.1 rfl⟩

namespace McpProxy

/-- `unquote` on a `String` is the identity when there is no percent
sign. -/
theorem unquoteStr_of_no_pct (s : String) (h : ∀ c ∈ s.data, ¬ c = '%') :
    unquoteStr s = s := by
  unfold unquoteStr
  rw [unquote_of_no_pct _ h]
  rfl

/-- When a non-empty redirect_uri triggers the rewrite, the forwarded
`state` parameter is exactly the compound-state encoding of the original
state and redirect_uri. -/
theorem authorize_state_param (env : ProxyEnv) (ev : ProxyEvent) (st ru : String)
    (hst : ev.queryStringParameters.lookup "state" = some st)
    (hru : ev.queryStringParameters.lookup "redirect_uri" = some ru)
    (hne : ¬ ru = "") :
    (handle_authorize_params env ev).lookup "state" =
      some (encode_compound_state st ru) := by
  have hbr := base_lookup_ne env ev "redirect_uri" (by decide) (by decide) (by decide)
  have hbs := base_lookup_ne env ev "state" (by decide) (by decide) (by decide)
  unfold handle_authorize_params
  rw [if_pos (by rw [hbr, hru]; simpa using hne)]
  rw [lookup_dictSet_ne _ _ _ _ (by decide), lookup_dictSet_self, hbs, hst, hbr, hru]
  rfl

end McpProxy

/-- Counterexample for C5 as stated: with original state `"%41"` and
redirect_uri `"x"` presented to `/authorize`, the callback decoding
recovers `("A", "x")`, not the original `("%41", "x")` — `handle_authorize`
URL-unquotes both values before JSON-serializing them, so the decoding
inverts only the serialize-then-base64 stage, not the full treatment of the
original parameters. -/
theorem c5_counterexample_percent_state :
    McpProxy.callback_decode_state (McpProxy.encode_compound_state "%41" "x") =
      some ("A", "x") ∧
    ¬ McpProxy.callback_decode_state (McpProxy.encode_compound_state "%41" "x") =
      some ("%41", "x") := by
  constructor
  · rfl
  · decide

/-- C5 (amended): for every original state string and non-empty
redirect_uri presented to `/authorize`, the decoding performed by
`handle_callback` (URL-unquote, replace spaces with `+`, base64url-decode,
JSON-parse) exactly inverts the JSON-serialize-then-base64url-encode stage
of `handle_authorize`, recovering the URL-unquoted state and redirect_uri;
when state and redirect_uri contain no percent sign they are recovered
entirely unchanged. -/
theorem c5_compound_state_roundtrip (env : McpProxy.ProxyEnv)
    (ev : McpProxy.ProxyEvent) (st ru : String)
    (hst : ev.queryStringParameters.lookup "state" = some st)
    (hru : ev.queryStringParameters.lookup "redirect_uri" = some ru)
    (hne : ¬ ru = "") :
    ∃ enc, (McpProxy.handle_authorize_params env ev).lookup "state" = some enc ∧
      McpProxy.callback_decode_state enc =
        some (McpProxy.unquoteStr st, McpProxy.unquoteStr ru) ∧
      ((∀ c ∈ st.data, ¬ c = '%') → (∀ c ∈ ru.data, ¬ c = '%') →
        McpProxy.callback_decode_state enc = some (st, ru)) := by
  refine ⟨McpProxy.encode_compound_state st ru,
    McpProxy.authorize_state_param env ev st ru hst hru hne,
    McpProxy.callback_decode_encode st ru, ?_⟩
  intro hs hr
  rw [McpProxy.callback_decode_encode st ru, McpProxy.unquoteStr_of_no_pct st hs,
    McpProxy.unquoteStr_of_no_pct ru hr]

/-- Witness for C5 (amended): the concrete authorize event round-trips its
state and redirect_uri through the compound-state parameter. -/
theorem c5_compound_state_roundtrip_witness :
    (c2EvGood.queryStringParameters.lookup "state" = some "abc") ∧
    (c2EvGood.queryStringParameters.lookup "redirect_uri" =
      some "http://localhost:3000/cb") ∧
    ¬ ("http://localhost:3000/cb" : String) = "" ∧
    ∃ enc, (McpProxy.handle_authorize_params c2Env c2EvGood).lookup "state" =
        some enc ∧
      McpProxy.callback_decode_state enc =
        some (McpProxy.unquoteStr "abc",
          McpProxy.unquoteStr "http://localhost:3000/cb") ∧
      ((∀ c ∈ ("abc" : String).data, ¬ c = '%') →
        (∀ c ∈ ("http://localhost:3000/cb" : String).data, ¬ c = '%') →
        McpProxy.callback_decode_state enc =
          some ("abc", "http://localhost:3000/cb")) := by
  refine ⟨rfl, rfl, by decide, ?_⟩
  exact c5_compound_state_roundtrip c2Env c2EvGood "abc" "http://localhost:3000/cb"
    rfl rfl (by decide)

namespace McpProxy

/-- Python `str.capitalize`: first character uppercased, the rest
lowercased. -/
def pyCapitalize (s : String) : String :=
  match s.data with
  | [] => ""
  | c :: rest => (c.toUpper :: rest.map Char.toLower).asString

/-- An outbound `urllib.request.Request` as built by `proxy_to_gateway`
(source lines 334-355): method, target URL, optional body, and the header
dictionary as stored by `Request.add_header`. -/
structure OutReq where
  method : String
  url : String
  rdata : Option String
  rheaders : List (String × String)

/-- `Request.add_header`: stores the value under the capitalized key,
replacing any previous entry with that key. -/
def add_header (r : OutReq) (k v : String) : OutReq :=
  { r with rheaders := dictSet r.rheaders (pyCapitalize k) v }

/-- The external library operations used by `proxy_to_gateway` and
`sign_request`: standard-alphabet `base64.b64decode` applied to the event
body (line 317), the JWT payload extraction
`json.loads(base64.b64decode(payload))["sub"]` (line 348), and the header
set that `SigV4Auth(credentials, "bedrock-agentcore", region).add_auth`
adds to the outgoing request (lines 25-40).  An `Except.error` value
models a raised exception. -/
structure ProxyExt where
  stdB64Decode : String → Except String String
  jwtSub : String → Except String String
  sigv4Headers : OutReq → List (String × String)

/-- `sign_request` (source lines 25-40): every header of the SigV4-signed
`AWSRequest` is copied back onto the original request via `add_header`. -/
def sign_request (ext : ProxyExt) (r : OutReq) : OutReq :=
  (ext.sigv4Headers r).foldl (fun acc kv => add_header acc kv.1 kv.2) r

/-- Python `s.split(sep)` for a one-character separator. -/
def splitOnChar (sep : Char) : List Char → List (List Char)
  | [] => [[]]
  | c :: cs =>
    match splitOnChar sep cs with
    | [] => [[]]
    | g :: gs => if c = sep then [] :: g :: gs else (c :: g) :: gs

/-- Python list indexing: `IndexError` when out of range. -/
def pyIndex {α : Type} (l : List α) (i : Nat) : Except String α :=
  match l.get? i with
  | some x => Except.ok x
  | none => Except.error "IndexError: list index out of range"

/-- The `req_headers` dict of `proxy_to_gateway` (source lines 322-330):
Content-Type and Accept taken from the lowercased inbound headers with
`application/json` defaults, then `mcp-protocol-version` and
`mcp-session-id` forwarded under their `str.title`-cased names when
present and non-empty (the loop over the two-element literal list is
unrolled; `"mcp-protocol-version".title()` is `"Mcp-Protocol-Version"`
and likewise for the session id). -/
def proxy_req_headers (h : List (String × String)) : List (String × String) :=
  let base := [("Content-Type", (h.lookup "content-type").getD "application/json"),
               ("Accept", (h.lookup "accept").getD "application/json")]
  let base := if (h.lookup "mcp-protocol-version").getD "" = "" then base
    else dictSet base "Mcp-Protocol-Version" ((h.lookup "mcp-protocol-version").getD "")
  if (h.lookup "mcp-session-id").getD "" = "" then base
  else dictSet base "Mcp-Session-Id" ((h.lookup "mcp-session-id").getD "")

/-- The outbound request of `proxy_to_gateway` before the authentication
branch (source lines 316-340): base64-decode the body when flagged, build
the `urllib.request.Request` (POST with data when the method is POST and
the body non-empty), and add every `req_headers` entry via `add_header`.
The `requestContext.http.method` fallback of line 308 is modelled by its
`"GET"` default, matching ALB-shaped events. -/
def proxy_unauth_req (env : ProxyEnv) (ext : ProxyExt) (ev : ProxyEvent) :
    Except String OutReq :=
  let method := if ev.httpMethod = "" then "GET" else ev.httpMethod
  let bodyE : Except String String :=
    if ev.isBase64Encoded ∧ ¬ ev.body = "" then ext.stdB64Decode ev.body
    else Except.ok ev.body
  match bodyE with
  | Except.error e => Except.error e
  | Except.ok body =>
    let req : OutReq :=
      if method = "POST" ∧ ¬ body = "" then
        { method := "POST", url := env.GATEWAY_URL, rdata := some body, rheaders := [] }
      else
        { method := method, url := env.GATEWAY_URL, rdata := none, rheaders := [] }
    Except.ok ((proxy_req_headers ev.headers).foldl
      (fun acc kv => add_header acc kv.1 kv.2) req)

/-- The fully prepared outbound request of `proxy_to_gateway` at the point
of `urlopen` (source lines 343-355): when `GATEWAY_AUTH` is `"IAM"`, an
inbound bearer token contributes the `X-Amzn-Bedrock-AgentCore-Runtime-User-Id`
header and the request is SigV4-signed via `sign_request`; otherwise the
inbound Authorization header is forwarded verbatim and no signing occurs.
An `Except.error` models an exception, which the surrounding handler turns
into a 502 response without contacting the gateway. -/
def proxy_to_gateway_req (env : ProxyEnv) (ext : ProxyExt) (ev : ProxyEvent) :
    Except String OutReq :=
  match proxy_unauth_req env ext ev with
  | Except.error e => Except.error e
  | Except.ok req =>
    let auth := (ev.headers.lookup "authorization").getD ""
    if env.GATEWAY_AUTH = some "IAM" then
      if ¬ auth = "" then
        match pyIndex (splitOnChar ' ' auth.data) 1 with
        | Except.error e => Except.error e
        | Except.ok tok =>
          match pyIndex (splitOnChar '.' tok) 1 with
          | Except.error e => Except.error e
          | Except.ok payload =>
            match ext.jwtSub payload.asString with
            | Except.error e => Except.error e
            | Except.ok sub =>
              Except.ok (sign_request ext
                (add_header req "X-Amzn-Bedrock-AgentCore-Runtime-User-Id" sub))
      else Except.ok (sign_request ext req)
    else
      if ¬ auth = "" then Except.ok (add_header req "Authorization" auth)
      else Except.ok req

end McpProxy

/-- A proxy environment with `GATEWAY_AUTH` unset, as deployed by the
sample CDK stack. -/
def c7EnvNoIam : McpProxy.ProxyEnv :=
  { GATEWAY_URL := "https://gw.example.com/mcp",
    COGNITO_DOMAIN := "https://cog.example.com",
    CLIENT_ID := "client-123", CLIENT_SECRET := "", GATEWAY_AUTH := none }

/-- The same environment with `GATEWAY_AUTH = "IAM"`. -/
def c7EnvIam : McpProxy.ProxyEnv :=
  { GATEWAY_URL := "https://gw.example.com/mcp",
    COGNITO_DOMAIN := "https://cog.example.com",
    CLIENT_ID := "client-123", CLIENT_SECRET := "", GATEWAY_AUTH := some "IAM" }

/-- A concrete `/mcp` GET event without inbound authentication. -/
def c7Ev : McpProxy.ProxyEvent :=
  { path := "/mcp", httpMethod := "GET", queryStringParameters := [],
    headers := [("host", "alb.example.com")], body := "",
    isBase64Encoded := false, ctxDomain := "", ctxStage := "" }

/-- A concrete external-operation bundle whose SigV4 signer always adds an
X-Amz-Date and an Authorization header. -/
def c7Ext : McpProxy.ProxyExt :=
  { stdB64Decode := fun s => Except.ok s,
    jwtSub := fun _ => Except.ok "user-1",
    sigv4Headers := fun _ =>
      [("X-Amz-Date", "20250101T000000Z"), ("Authorization", "AWS4-HMAC-SHA256 sig")] }

/-- Counterexample for C7 as stated: with `GATEWAY_AUTH` unset (the
deployed configuration), an `/mcp` request is forwarded to the gateway
with only the Content-Type and Accept headers — `sign_request` is never
invoked, so no SigV4 header appears on the outbound request. -/
theorem c7_counterexample_unsigned_without_iam :
    McpProxy.proxy_to_gateway_req c7EnvNoIam c7Ext c7Ev =
      Except.ok ⟨"GET", "https://gw.example.com/mcp", none,
        [("Content-type", "application/json"), ("Accept", "application/json")]⟩ ∧
    c7EnvNoIam.GATEWAY_AUTH = none := ⟨rfl, rfl⟩

/-- C7 (amended): SigV4 signing of the `/mcp` proxy request happens
exactly when the `GATEWAY_AUTH` environment variable is `"IAM"`.  In that
mode, a request without an inbound Authorization header is passed to
`sign_request` before being sent; when `GATEWAY_AUTH` is anything else
the outbound request is independent of the SigV4 signer and consists of
the unauthenticated request plus the verbatim forwarded Authorization
header when one is present. -/
theorem c7_sigv4_only_when_iam (env : McpProxy.ProxyEnv)
    (ext : McpProxy.ProxyExt) (ev : McpProxy.ProxyEvent) :
    (env.GATEWAY_AUTH = some "IAM" →
      (ev.headers.lookup "authorization").getD "" = "" →
      McpProxy.proxy_to_gateway_req env ext ev =
        (match McpProxy.proxy_unauth_req env ext ev with
         | Except.error e => Except.error e
         | Except.ok r => Except.ok (McpProxy.sign_request ext r))) ∧
    (¬ env.GATEWAY_AUTH = some "IAM" →
      ∀ sig1 sig2 : McpProxy.OutReq → List (String × String),
        McpProxy.proxy_to_gateway_req env
            { ext with sigv4Headers := sig1 } ev =
          McpProxy.proxy_to_gateway_req env
            { ext with sigv4Headers := sig2 } ev ∧
        McpProxy.proxy_to_gateway_req env
            { ext with sigv4Headers := sig1 } ev =
          (match McpProxy.proxy_unauth_req env ext ev with
           | Except.error e => Except.error e
           | Except.ok r =>
             Except.ok (if ¬ ((ev.headers.lookup "authorization").getD "") = ""
               then McpProxy.add_header r "Authorization"
                 ((ev.headers.lookup "authorization").getD "")
               else r))) := by
  constructor
  · intro hiam hauth
    unfold McpProxy.proxy_to_gateway_req
    cases McpProxy.proxy_unauth_req env ext ev with
    | error e => rfl
    | ok r =>
      simp [hiam, hauth]
  · intro hni sig1 sig2
    have hsame : ∀ sig : McpProxy.OutReq → List (String × String),
        McpProxy.proxy_unauth_req env { ext with sigv4Headers := sig } ev =
          McpProxy.proxy_unauth_req env ext ev := by
      intro sig; rfl
    constructor
    · unfold McpProxy.proxy_to_gateway_req
      rw [hsame sig1, hsame sig2]
      cases McpProxy.proxy_unauth_req env ext ev with
      | error e => rfl
      | ok r => simp only [if_neg hni]
    · unfold McpProxy.proxy_to_gateway_req
      rw [hsame sig1]
      cases McpProxy.proxy_unauth_req env ext ev with
      | error e => rfl
      | ok r =>
        simp only [if_neg hni]
        split <;> rfl

/-- Witness for C7 (amended): in IAM mode the concrete `/mcp` request is
signed, gaining the signer's X-Amz-Date and Authorization headers. -/
theorem c7_sigv4_only_when_iam_witness :
    c7EnvIam.GATEWAY_AUTH = some "IAM" ∧
    (c7Ev.headers.lookup "authorization").getD "" = "" ∧
    McpProxy.proxy_to_gateway_req c7EnvIam c7Ext c7Ev =
      (match McpProxy.proxy_unauth_req c7EnvIam c7Ext c7Ev with
       | Except.error e => Except.error e
       | Except.ok r => Except.ok (McpProxy.sign_request c7Ext r)) :=
  ⟨rfl, rfl, (c7_sigv4_only_when_iam c7EnvIam c7Ext c7Ev).1 rfl rfl⟩

namespace PolicyEngine

/-!
Embedding of
`cdk/lambda/agentcore-policy-engine/agentcore_policy_engine.py`.

Time model: `time.time()` advances only through `time.sleep(10)` calls (API
calls are treated as instantaneous), so the wall-clock guard
`time.time() - start_time < max_wait_time` of every polling loop holds on
iteration `k` (zero-based) exactly when `10 * k < max_wait_time`, i.e. for
`k < (max_wait_time + 9) / 10` iterations; the loops are embedded as
structural recursion on that iteration count, whose exhaustion is the
wall-clock timeout.  AWS API calls are oracle fields of `PEClient`;
`Except.error` models a raised exception.
-/

/-- The outcome of a `get_policy_engine` / `get_policy` call: a response
carrying a status (and, for the engine, a `policyEngineArn`), a
`ResourceNotFoundException`, or any other exception. -/
inductive PEGet where
  | found (status : String) (arn : String)
  | notFound
  | err (msg : String)

/-- The AWS `bedrock-agentcore-control` client and the clock, as an oracle.
`get_policy_engine` and `get_policy` are sequences indexed by the number of
calls made so far within one handler invocation.  `create_policy_engine`
yields `(policyEngineId, policyEngineArn)`, `update_policy_engine` the
`policyEngineArn` of the update response, `create_policy` the `policyId`. -/
structure PEClient where
  now : Nat
  create_policy_engine : Except String (String × String)
  get_policy_engine : Nat → PEGet
  update_policy_engine : Except String String
  delete_policy_engine : Except String Unit
  create_policy : Except String String
  get_policy : Nat → PEGet
  update_policy : Except String Unit
  delete_policy : Except String Unit
  get_gateway : Except String Unit
  update_gateway : Except String Unit

/-- A CloudFormation custom-resource event.  `ResourceProperties` values
are modelled as strings; `PhysicalResourceId` is absent on Create. -/
structure CfnEvent where
  RequestType : String
  ResourceProperties : List (String × String)
  OldResourceProperties : List (String × String)
  PhysicalResourceId : Option String
  StackId : String
  RequestId : String
  LogicalResourceId : String

/-- The response body that `send_response` PUTs to CloudFormation and
returns.  `Data` values are `none` for Python `None`. -/
structure CfnResponse where
  Status : String
  Reason : String
  PhysicalResourceId : String
  StackId : String
  RequestId : String
  LogicalResourceId : String
  Data : List (String × Option String)

/-- Python `f"{x}"` on a value that may be `None`. -/
def pyStrOpt : Option String → String
  | some s => s
  | none => "None"

/-- `send_response` (source lines 630-676): builds the response body; a
falsy `physical_resource_id` argument falls back to the event's
`PhysicalResourceId` or a `failed-<timestamp>` id.  The HTTP PUT to the
`ResponseURL` has no effect on the returned value (its errors are
swallowed). -/
def send_response (now : Nat) (event : CfnEvent) (status reason : String)
    (response_data : List (String × Option String))
    (physical_resource_id : Option String) : CfnResponse :=
  let pr :=
    match physical_resource_id with
    | some s =>
      if s = "" then event.PhysicalResourceId.getD ("failed-" ++ toString now)
      else s
    | none => event.PhysicalResourceId.getD ("failed-" ++ toString now)
  { Status := status, Reason := reason, PhysicalResourceId := pr,
    StackId := event.StackId, RequestId := event.RequestId,
    LogicalResourceId := event.LogicalResourceId, Data := response_data }

/-- The loop body of `wait_for_policy_engine_active` (source lines
490-516), structurally recursive on the remaining iteration count: ACTIVE
returns, FAILED/DELETING raises, any exception from the get (including
ResourceNotFound) is re-raised, other statuses sleep 10 s; exhaustion is
the wall-clock timeout. -/
def waitEngineActiveGo (get : Nat → PEGet) (max_wait_time : Nat) :
    Nat → Nat → Except String Unit
  | 0, _ =>
    Except.error ("Policy engine did not become active within " ++
      toString max_wait_time ++ " seconds")
  | fuel + 1, k =>
    match get k with
    | PEGet.found status _ =>
      if status = "ACTIVE" then Except.ok ()
      else if status = "FAILED" ∨ status = "DELETING" then
        Except.error ("Policy engine creation failed with status: " ++ status)
      else waitEngineActiveGo get max_wait_time fuel (k + 1)
    | PEGet.notFound => Except.error "ResourceNotFoundException"
    | PEGet.err msg => Except.error msg

/-- `wait_for_policy_engine_active` (source lines 490-516). -/
def wait_for_policy_engine_active (get : Nat → PEGet) (max_wait_time : Nat) :
    Except String Unit :=
  waitEngineActiveGo get max_wait_time ((max_wait_time + 9) / 10) 0

/-- The loop body of `wait_for_policy_engine_deleted` (source lines
596-628): every still-existing status sleeps 10 s (the DELETING and
non-DELETING branches are identical), ResourceNotFound returns, any other
exception is re-raised. -/
def waitEngineDeletedGo (get : Nat → PEGet) (max_wait_time : Nat) :
    Nat → Nat → Except String Unit
  | 0, _ =>
    Except.error ("Policy engine was not deleted within " ++
      toString max_wait_time ++ " seconds")
  | fuel + 1, k =>
    match get k with
    | PEGet.found _ _ => waitEngineDeletedGo get max_wait_time fuel (k + 1)
    | PEGet.notFound => Except.ok ()
    | PEGet.err msg => Except.error msg

/-- `wait_for_policy_engine_deleted` (source lines 596-628). -/
def wait_for_policy_engine_deleted (get : Nat → PEGet) (max_wait_time : Nat) :
    Except String Unit :=
  waitEngineDeletedGo get max_wait_time ((max_wait_time + 9) / 10) 0

/-- The loop body of `wait_for_policy_active` (source lines 518-558):
like the engine waiter but CREATE_FAILED also raises and ResourceNotFound
sleeps and retries instead of raising. -/
def waitPolicyActiveGo (get : Nat → PEGet) (max_wait_time : Nat) :
    Nat → Nat → Except String Unit
  | 0, _ =>
    Except.error ("Policy did not become active within " ++
      toString max_wait_time ++ " seconds")
  | fuel + 1, k =>
    match get k with
    | PEGet.found status _ =>
      if status = "ACTIVE" then Except.ok ()
      else if status = "FAILED" ∨ status = "DELETING" ∨ status = "CREATE_FAILED" then
        Except.error ("Policy creation failed with status: " ++ status)
      else waitPolicyActiveGo get max_wait_time fuel (k + 1)
    | PEGet.notFound => waitPolicyActiveGo get max_wait_time fuel (k + 1)
    | PEGet.err msg => Except.error msg

/-- `wait_for_policy_active` (source lines 518-558). -/
def wait_for_policy_active (get : Nat → PEGet) (max_wait_time : Nat) :
    Except String Unit :=
  waitPolicyActiveGo get max_wait_time ((max_wait_time + 9) / 10) 0

/-- The loop body of `wait_for_policy_deleted` (source lines 561-594),
identical in shape to the engine deletion waiter. -/
def waitPolicyDeletedGo (get : Nat → PEGet) (max_wait_time : Nat) :
    Nat → Nat → Except String Unit
  | 0, _ =>
    Except.error ("Policy was not deleted within " ++
      toString max_wait_time ++ " seconds")
  | fuel + 1, k =>
    match get k with
    | PEGet.found _ _ => waitPolicyDeletedGo get max_wait_time fuel (k + 1)
    | PEGet.notFound => Except.ok ()
    | PEGet.err msg => Except.error msg

/-- `wait_for_policy_deleted` (source lines 561-594). -/
def wait_for_policy_deleted (get : Nat → PEGet) (max_wait_time : Nat) :
    Except String Unit :=
  waitPolicyDeletedGo get max_wait_time ((max_wait_time + 9) / 10) 0

/-- `create_policy_engine` handler (source lines 146-187): create, wait
for ACTIVE, SUCCESS with the engine data; any exception yields FAILED. -/
def create_policy_engine (c : PEClient) (event : CfnEvent)
    (_properties : List (String × String)) : CfnResponse :=
  match c.create_policy_engine with
  | Except.error e => send_response c.now event "FAILED" e [] none
  | Except.ok (policy_engine_id, policy_engine_arn) =>
    match wait_for_policy_engine_active c.get_policy_engine 300 with
    | Except.error e => send_response c.now event "FAILED" e [] none
    | Except.ok _ =>
      send_response c.now event "SUCCESS" "Policy engine created successfully"
        [("PolicyEngineId", some policy_engine_id),
         ("PolicyEngineArn", some policy_engine_arn),
         ("Status", some "ACTIVE")]
        (some policy_engine_id)

/-- `update_policy_engine` handler (source lines 190-267): check
existence (get call 0); when found, update and wait (get calls 1..),
wrapping failures as `Failed to update policy engine: ...`; when not
found, create anew and wait; any exception yields FAILED. -/
def update_policy_engine (c : PEClient) (event : CfnEvent)
    (_properties : List (String × String)) : CfnResponse :=
  let physical_resource_id := event.PhysicalResourceId.getD ""
  match c.get_policy_engine 0 with
  | PEGet.found status _ =>
    let upd : Except String String :=
      match c.update_policy_engine with
      | Except.error e =>
        Except.error ("Failed to update policy engine: " ++ e)
      | Except.ok arn =>
        match wait_for_policy_engine_active (fun i => c.get_policy_engine (1 + i)) 300 with
        | Except.error e =>
          Except.error ("Failed to update policy engine: " ++ e)
        | Except.ok _ => Except.ok arn
    match upd with
    | Except.error e => send_response c.now event "FAILED" e [] none
    | Except.ok arn =>
      send_response c.now event "SUCCESS" "Policy engine update"
        [("PolicyEngineId", some physical_resource_id),
         ("PolicyEngineArn", some arn), ("Status", some status)]
        (some physical_resource_id)
  | PEGet.notFound =>
    match c.create_policy_engine with
    | Except.error e => send_response c.now event "FAILED" e [] none
    | Except.ok (new_policy_engine_id, _) =>
      match wait_for_policy_engine_active (fun i => c.get_policy_engine (1 + i)) 300 with
      | Except.error e => send_response c.now event "FAILED" e [] none
      | Except.ok _ =>
        send_response c.now event "SUCCESS" "Policy engine recreated successfully"
          [("PolicyEngineId", some new_policy_engine_id), ("Status", some "ACTIVE")]
          (some new_policy_engine_id)
  | PEGet.err e => send_response c.now event "FAILED" e [] none

/-- `delete_policy_engine` handler (source lines 270-307): delete and
wait when a physical id exists; every exception is caught and still
produces a SUCCESS response whose Reason carries the warning. -/
def delete_policy_engine (c : PEClient) (event : CfnEvent)
    (_properties : List (String × String)) : CfnResponse :=
  let physical_resource_id := event.PhysicalResourceId.getD ""
  let attempt : Except String Unit :=
    if ¬ physical_resource_id = "" then
      match c.delete_policy_engine with
      | Except.error e => Except.error e
      | Except.ok _ => wait_for_policy_engine_deleted c.get_policy_engine 300
    else Except.ok ()
  match attempt with
  | Except.ok _ =>
    send_response c.now event "SUCCESS" "Policy engine deleted successfully"
      [] (some physical_resource_id)
  | Except.error e =>
    send_response c.now event "SUCCESS" ("Delete completed with warnings: " ++ e)
      [] (some (event.PhysicalResourceId.getD "unknown"))

/-- `create_policy` handler (source lines 330-386): validate required
properties, create, wait for ACTIVE, SUCCESS with the policy data; any
exception yields FAILED. -/
def create_policy (c : PEClient) (event : CfnEvent)
    (properties : List (String × String)) : CfnResponse :=
  let policy_engine_id := (properties.lookup "PolicyEngineId").getD ""
  let policy_name := (properties.lookup "PolicyName").getD ""
  let policy_description := (properties.lookup "PolicyDescription").getD
    ("Policy: " ++ pyStrOpt (properties.lookup "PolicyName"))
  let policy_statement := (properties.lookup "PolicyStatement").getD ""
  if policy_engine_id = "" then
    send_response c.now event "FAILED"
      "PolicyEngineId is required for creating a policy" [] none
  else if policy_name = "" then
    send_response c.now event "FAILED" "PolicyName is required" [] none
  else if policy_statement = "" then
    send_response c.now event "FAILED" "PolicyStatement is required" [] none
  else
    match c.create_policy with
    | Except.error e => send_response c.now event "FAILED" e [] none
    | Except.ok policy_id =>
      match wait_for_policy_active c.get_policy 300 with
      | Except.error e => send_response c.now event "FAILED" e [] none
      | Except.ok _ =>
        send_response c.now event "SUCCESS" "Policy created successfully"
          [("PolicyId", some policy_id),
           ("PolicyEngineId", some policy_engine_id),
           ("PolicyDescription", some policy_description),
           ("PolicyName", some policy_name),
           ("Status", some "ACTIVE")]
          (some policy_id)

/-- `update_policy` handler (source lines 389-445): call `update_policy`
only when the statement changed; SUCCESS with the policy data; any
exception yields FAILED. -/
def update_policy (c : PEClient) (event : CfnEvent)
    (properties : List (String × String)) : CfnResponse :=
  let physical_resource_id := event.PhysicalResourceId.getD ""
  let policy_engine_id := properties.lookup "PolicyEngineId"
  let policy_statement := properties.lookup "PolicyStatement"
  let policy_name := properties.lookup "PolicyName"
  let policy_description := (properties.lookup "PolicyDescription").getD
    ("Policy: " ++ pyStrOpt (properties.lookup "PolicyName"))
  let old_statement := (event.OldResourceProperties.lookup "PolicyStatement").getD ""
  let upd : Except String Unit :=
    if ¬ policy_statement = some old_statement then c.update_policy
    else Except.ok ()
  match upd with
  | Except.error e => send_response c.now event "FAILED" e [] none
  | Except.ok _ =>
    send_response c.now event "SUCCESS" "Policy updated successfully"
      [("PolicyId", some physical_resource_id),
       ("PolicyEngineId", policy_engine_id),
       ("PolicyName", policy_name),
       ("PolicyDescription", some policy_description),
       ("Status", some "ACTIVE")]
      (some physical_resource_id)

/-- `delete_policy` handler (source lines 448-481): delete and wait when
both a physical id and an engine id exist; every exception is caught and
still produces a SUCCESS response whose Reason carries the warning. -/
def delete_policy (c : PEClient) (event : CfnEvent)
    (properties : List (String × String)) : CfnResponse :=
  let physical_resource_id := event.PhysicalResourceId.getD ""
  let policy_engine_id := (properties.lookup "PolicyEngineId").getD ""
  let attempt : Except String Unit :=
    if ¬ physical_resource_id = "" ∧ ¬ policy_engine_id = "" then
      match c.delete_policy with
      | Except.error e => Except.error e
      | Except.ok _ => wait_for_policy_deleted c.get_policy 300
    else Except.ok ()
  match attempt with
  | Except.ok _ =>
    send_response c.now event "SUCCESS" "Policy deleted successfully"
      [] (some physical_resource_id)
  | Except.error e =>
    send_response c.now event "SUCCESS" ("Delete completed with warnings: " ++ e)
      [] (some (event.PhysicalResourceId.getD "unknown"))

/-- `handle_policy_engine` (source lines 132-143): dispatch on the
request type; an unknown request type raises `ValueError`. -/
def handle_policy_engine (c : PEClient) (event : CfnEvent)
    (request_type : String) (properties : List (String × String)) :
    Except String CfnResponse :=
  if request_type = "Create" then Except.ok (create_policy_engine c event properties)
  else if request_type = "Update" then Except.ok (update_policy_engine c event properties)
  else if request_type = "Delete" then Except.ok (delete_policy_engine c event properties)
  else Except.error ("Unknown request type: " ++ request_type)

/-- `handle_policy` (source lines 314-327). -/
def handle_policy (c : PEClient) (event : CfnEvent)
    (request_type : String) (properties : List (String × String)) :
    Except String CfnResponse :=
  if request_type = "Create" then Except.ok (create_policy c event properties)
  else if request_type = "Update" then Except.ok (update_policy c event properties)
  else if request_type = "Delete" then Except.ok (delete_policy c event properties)
  else Except.error ("Unknown request type: " ++ request_type)

/-- `handle_policy_engine_gateway_association` (source lines 46-125):
Delete answers SUCCESS without API calls; Create/Update with a GatewayId
read and update the gateway, turning failures into a FAILED response; a
missing GatewayId skips the association; an unknown request type raises
`ValueError`. -/
def handle_policy_engine_gateway_association (c : PEClient) (event : CfnEvent)
    (request_type : String) (properties : List (String × String)) :
    Except String CfnResponse :=
  let association_id := pyStrOpt (properties.lookup "PolicyEngineId") ++ "-association"
  if request_type = "Delete" then
    Except.ok (send_response c.now event "SUCCESS"
      "Policy engine gateway association deleted" [] (some association_id))
  else if request_type = "Create" ∨ request_type = "Update" then
    let gateway_id := (properties.lookup "GatewayId").getD ""
    if ¬ gateway_id = "" then
      match (match c.get_gateway with
             | Except.error e => Except.error e
             | Except.ok _ => c.update_gateway) with
      | Except.error e =>
        Except.ok (send_response c.now event "FAILED"
          ("Error associating policy engine with gateway: " ++ e) [] none)
      | Except.ok _ =>
        Except.ok (send_response c.now event "SUCCESS"
          "Policy engine associated with gateway successfully" [] (some association_id))
    else
      Except.ok (send_response c.now event "SUCCESS"
        "Policy engine associated with gateway successfully" [] (some association_id))
  else Except.error ("Unknown request type: " ++ request_type)

/-- `lambda_handler` (source lines 12-40): dispatch on the ResourceType
property (default PolicyEngine); every exception — including the
`ValueError` for an unknown resource type — is turned into a FAILED
response by the outer handler. -/
def lambda_handler (c : PEClient) (event : CfnEvent) : CfnResponse :=
  let request_type := event.RequestType
  let resource_properties := event.ResourceProperties
  let resource_type := (resource_properties.lookup "ResourceType").getD "PolicyEngine"
  let r : Except String CfnResponse :=
    if resource_type = "PolicyEngine" then
      handle_policy_engine c event request_type resource_properties
    else if resource_type = "Policy" then
      handle_policy c event request_type resource_properties
    else if resource_type = "PolicyEngineGatewayAssociation" then
      handle_policy_engine_gateway_association c event request_type resource_properties
    else Except.error ("Unknown resource type: " ++ resource_type)
  match r with
  | Except.ok resp => resp
  | Except.error e => send_response c.now event "FAILED" e [] none

end PolicyEngine

namespace PolicyEngine

/-- The Status field of a CloudFormation response is the status argument
of `send_response`. -/
theorem send_response_Status (now : Nat) (event : CfnEvent) (st rsn : String)
    (d : List (String × Option String)) (pr : Option String) :
    (send_response now event st rsn d pr).Status = st := rfl

/-- Dispatch of `lambda_handler` for ResourceType PolicyEngine. -/
theorem dispatch_pe (c : PEClient) (event : CfnEvent)
    (hrt : (event.ResourceProperties.lookup "ResourceType").getD "PolicyEngine" =
      "PolicyEngine") :
    (event.RequestType = "Create" →
      lambda_handler c event = create_policy_engine c event event.ResourceProperties) ∧
    (event.RequestType = "Update" →
      lambda_handler c event = update_policy_engine c event event.ResourceProperties) ∧
    (event.RequestType = "Delete" →
      lambda_handler c event = delete_policy_engine c event event.ResourceProperties) := by
  refine ⟨?_, ?_, ?_⟩ <;> intro hreq <;>
    · unfold lambda_handler handle_policy_engine
      simp [hrt, hreq]

/-- Dispatch of `lambda_handler` for ResourceType Policy. -/
theorem dispatch_policy (c : PEClient) (event : CfnEvent)
    (hrt : (event.ResourceProperties.lookup "ResourceType").getD "PolicyEngine" =
      "Policy") :
    (event.RequestType = "Create" →
      lambda_handler c event = create_policy c event event.ResourceProperties) ∧
    (event.RequestType = "Update" →
      lambda_handler c event = update_policy c event event.ResourceProperties) ∧
    (event.RequestType = "Delete" →
      lambda_handler c event = delete_policy c event event.ResourceProperties) := by
  refine ⟨?_, ?_, ?_⟩ <;> intro hreq <;>
    · unfold lambda_handler handle_policy
      simp [hrt, hreq]

/-- Dispatch of `lambda_handler` for the gateway association on Delete. -/
theorem dispatch_assoc_delete (c : PEClient) (event : CfnEvent)
    (hrt : (event.ResourceProperties.lookup "ResourceType").getD "PolicyEngine" =
      "PolicyEngineGatewayAssociation")
    (hreq : event.RequestType = "Delete") :
    lambda_handler c event =
      send_response c.now event "SUCCESS"
        "Policy engine gateway association deleted" []
        (some (pyStrOpt (event.ResourceProperties.lookup "PolicyEngineId") ++
          "-association")) := by
  unfold lambda_handler handle_policy_engine_gateway_association
  simp [hrt, hreq]

/-- An unknown ResourceType makes `lambda_handler` answer FAILED. -/
theorem dispatch_unknown (c : PEClient) (event : CfnEvent) (rt : String)
    (hrt : (event.ResourceProperties.lookup "ResourceType").getD "PolicyEngine" = rt)
    (h1 : ¬ rt = "PolicyEngine") (h2 : ¬ rt = "Policy")
    (h3 : ¬ rt = "PolicyEngineGatewayAssociation") :
    lambda_handler c event =
      send_response c.now event "FAILED" ("Unknown resource type: " ++ rt) [] none := by
  unfold lambda_handler
  simp [hrt, h1, h2, h3]

/-- A Delete of a PolicyEngine resource always produces Status SUCCESS. -/
theorem delete_policy_engine_success (c : PEClient) (event : CfnEvent)
    (props : List (String × String)) :
    (delete_policy_engine c event props).Status = "SUCCESS" := by
  unfold delete_policy_engine
  dsimp only
  split <;> rfl

/-- A Delete of a Policy resource always produces Status SUCCESS. -/
theorem delete_policy_success (c : PEClient) (event : CfnEvent)
    (props : List (String × String)) :
    (delete_policy c event props).Status = "SUCCESS" := by
  unfold delete_policy
  dsimp only
  split <;> rfl

end PolicyEngine

/-- C3: `lambda_handler` dispatches Create/Update/Delete for the three
known resource types — PolicyEngine, Policy, PolicyEngineGatewayAssociation
(whose Delete is answered directly) — to the corresponding sub-handlers,
and for any other ResourceType value the raised `ValueError` is caught by
the outer handler, which returns a response with Status FAILED instead of
letting the exception propagate. -/
theorem c3_cfn_dispatch_and_unknown_type (c : PolicyEngine.PEClient)
    (event : PolicyEngine.CfnEvent) :
    (∀ rt, (event.ResourceProperties.lookup "ResourceType").getD "PolicyEngine" = rt →
      ¬ rt = "PolicyEngine" → ¬ rt = "Policy" →
      ¬ rt = "PolicyEngineGatewayAssociation" →
      PolicyEngine.lambda_handler c event =
        PolicyEngine.send_response c.now event "FAILED"
          ("Unknown resource type: " ++ rt) [] none ∧
      (PolicyEngine.lambda_handler c event).Status = "FAILED") ∧
    ((event.ResourceProperties.lookup "ResourceType").getD "PolicyEngine" =
        "PolicyEngine" →
      (event.RequestType = "Create" → PolicyEngine.lambda_handler c event =
        PolicyEngine.create_policy_engine c event event.ResourceProperties) ∧
      (event.RequestType = "Update" → PolicyEngine.lambda_handler c event =
        PolicyEngine.update_policy_engine c event event.ResourceProperties) ∧
      (event.RequestType = "Delete" → PolicyEngine.lambda_handler c event =
        PolicyEngine.delete_policy_engine c event event.ResourceProperties)) ∧
    ((event.ResourceProperties.lookup "ResourceType").getD "PolicyEngine" =
        "Policy" →
      (event.RequestType = "Create" → PolicyEngine.lambda_handler c event =
        PolicyEngine.create_policy c event event.ResourceProperties) ∧
      (event.RequestType = "Update" → PolicyEngine.lambda_handler c event =
        PolicyEngine.update_policy c event event.ResourceProperties) ∧
      (event.RequestType = "Delete" → PolicyEngine.lambda_handler c event =
        PolicyEngine.delete_policy c event event.ResourceProperties)) ∧
    ((event.ResourceProperties.lookup "ResourceType").getD "PolicyEngine" =
        "PolicyEngineGatewayAssociation" → event.RequestType = "Delete" →
      PolicyEngine.lambda_handler c event =
        PolicyEngine.send_response c.now event "SUCCESS"
          "Policy engine gateway association deleted" []
          (some (PolicyEngine.pyStrOpt
            (event.ResourceProperties.lookup "PolicyEngineId") ++ "-association"))) := by
  refine ⟨?_, PolicyEngine.dispatch_pe c event, PolicyEngine.dispatch_policy c event,
    PolicyEngine.dispatch_assoc_delete c event⟩
  intro rt hrt h1 h2 h3
  have hd := PolicyEngine.dispatch_unknown c event rt hrt h1 h2 h3
  exact ⟨hd, by rw [hd]; exact PolicyEngine.send_response_Status _ _ _ _ _ _⟩

/-- A healthy concrete client oracle. -/
def peClientGood : PolicyEngine.PEClient :=
  { now := 1700000000,
    create_policy_engine := Except.ok ("pe-1", "arn:pe-1"),
    get_policy_engine := fun _ => PolicyEngine.PEGet.found "ACTIVE" "arn:pe-1",
    update_policy_engine := Except.ok "arn:pe-1",
    delete_policy_engine := Except.ok (),
    create_policy := Except.ok "pol-1",
    get_policy := fun _ => PolicyEngine.PEGet.found "ACTIVE" "",
    update_policy := Except.ok (),
    delete_policy := Except.ok (),
    get_gateway := Except.ok (),
    update_gateway := Except.ok () }

/-- A CloudFormation event with an unknown ResourceType. -/
def evBanana : PolicyEngine.CfnEvent :=
  { RequestType := "Create",
    ResourceProperties := [("ResourceType", "Banana")],
    OldResourceProperties := [], PhysicalResourceId := none,
    StackId := "stack-1", RequestId := "req-1", LogicalResourceId := "Res1" }

/-- A Create event for a PolicyEngine resource. -/
def evCreatePE : PolicyEngine.CfnEvent :=
  { RequestType := "Create",
    ResourceProperties := [("PolicyEngineName", "pe")],
    OldResourceProperties := [], PhysicalResourceId := none,
    StackId := "stack-1", RequestId := "req-1", LogicalResourceId := "Res1" }

/-- Witness for C3: the unknown ResourceType "Banana" yields a FAILED
response, and a PolicyEngine Create event reaches `create_policy_engine`. -/
theorem c3_cfn_dispatch_and_unknown_type_witness :
    (PolicyEngine.lambda_handler peClientGood evBanana =
      PolicyEngine.send_response peClientGood.now evBanana "FAILED"
        ("Unknown resource type: " ++ "Banana") [] none ∧
     (PolicyEngine.lambda_handler peClientGood evBanana).Status = "FAILED") ∧
    PolicyEngine.lambda_handler peClientGood evCreatePE =
      PolicyEngine.create_policy_engine peClientGood evCreatePE
        evCreatePE.ResourceProperties :=
  ⟨(c3_cfn_dispatch_and_unknown_type peClientGood evBanana).1 "Banana" rfl
      (by decide) (by decide) (by decide),
   ((c3_cfn_dispatch_and_unknown_type peClientGood evCreatePE).2.1 rfl).1 rfl⟩

/-- C8: a Delete request for a PolicyEngine or Policy resource always
yields a response with Status SUCCESS, for every behaviour of the AWS
API (delete call or deletion-wait failures only change the Reason to a
`Delete completed with warnings` message); a Delete never produces
FAILED. -/
theorem c8_delete_never_failed (c : PolicyEngine.PEClient)
    (event : PolicyEngine.CfnEvent) :
    (PolicyEngine.delete_policy_engine c event event.ResourceProperties).Status =
      "SUCCESS" ∧
    (PolicyEngine.delete_policy c event event.ResourceProperties).Status =
      "SUCCESS" ∧
    (event.RequestType = "Delete" →
      ((event.ResourceProperties.lookup "ResourceType").getD "PolicyEngine" =
         "PolicyEngine" ∨
       (event.ResourceProperties.lookup "ResourceType").getD "PolicyEngine" =
         "Policy") →
      (PolicyEngine.lambda_handler c event).Status = "SUCCESS") := by
  refine ⟨PolicyEngine.delete_policy_engine_success c event _,
    PolicyEngine.delete_policy_success c event _, ?_⟩
  intro hreq hrt
  rcases hrt with hrt | hrt
  · rw [(PolicyEngine.dispatch_pe c event hrt).2.2 hreq]
    exact PolicyEngine.delete_policy_engine_success c event _
  · rw [(PolicyEngine.dispatch_policy c event hrt).2.2 hreq]
    exact PolicyEngine.delete_policy_success c event _

/-- A client oracle whose delete APIs raise and whose resources never
disappear. -/
def peClientBad : PolicyEngine.PEClient :=
  { now := 1700000000,
    create_policy_engine := Except.error "AccessDeniedException",
    get_policy_engine := fun _ => PolicyEngine.PEGet.found "CREATING" "arn:pe-1",
    update_policy_engine := Except.error "AccessDeniedException",
    delete_policy_engine := Except.error "AccessDeniedException",
    create_policy := Except.error "AccessDeniedException",
    get_policy := fun _ => PolicyEngine.PEGet.found "CREATING" "",
    update_policy := Except.error "AccessDeniedException",
    delete_policy := Except.error "AccessDeniedException",
    get_gateway := Except.error "AccessDeniedException",
    update_gateway := Except.error "AccessDeniedException" }

/-- A Delete event for a PolicyEngine resource with a physical id. -/
def evDeletePE : PolicyEngine.CfnEvent :=
  { RequestType := "Delete",
    ResourceProperties := [("ResourceType", "PolicyEngine")],
    OldResourceProperties := [], PhysicalResourceId := some "pe-1",
    StackId := "stack-1", RequestId := "req-1", LogicalResourceId := "Res1" }

/-- Witness for C8: even against a client whose delete API raises, the
Delete event is answered with Status SUCCESS. -/
theorem c8_delete_never_failed_witness :
    (PolicyEngine.lambda_handler peClientBad evDeletePE).Status = "SUCCESS" :=
  (c8_delete_never_failed peClientBad evDeletePE).2.2 rfl (Or.inl rfl)

namespace PolicyEngine

/-- The engine-active waiter succeeds iff some in-budget poll sees ACTIVE
after only benign (neither ACTIVE, FAILED nor DELETING) statuses. -/
theorem waitEngineActiveGo_ok_iff (get : Nat → PEGet) (m : Nat) :
    ∀ fuel k, (waitEngineActiveGo get m fuel k = Except.ok () ↔
      ∃ j, j < fuel ∧ (∃ a, get (k + j) = PEGet.found "ACTIVE" a) ∧
        ∀ i, i < j → ∃ s a, get (k + i) = PEGet.found s a ∧
          ¬ s = "ACTIVE" ∧ ¬ s = "FAILED" ∧ ¬ s = "DELETING") := by
  intro fuel
  induction fuel with
  | zero =>
    intro k
    simp [waitEngineActiveGo]
  | succ n ih =>
    intro k
    cases hg : get k with
    | found s a =>
      by_cases hA : s = "ACTIVE"
      · subst hA
        simp only [waitEngineActiveGo, hg, if_pos rfl]
        constructor
        · intro _
          exact ⟨0, Nat.succ_pos n, ⟨a, by simpa using hg⟩,
            fun i hi => absurd hi (Nat.not_lt_zero i)⟩
        · intro _; rfl
      by_cases hFD : s = "FAILED" ∨ s = "DELETING"
      · simp only [waitEngineActiveGo, hg, if_neg hA, if_pos hFD]
        constructor
        · intro h; cases h
        · rintro ⟨j, hj, ⟨a', hact⟩, hpre⟩
          cases j with
          | zero =>
            rw [Nat.add_zero] at hact
            rw [hg] at hact
            cases hact
            exact absurd rfl hA
          | succ i =>
            obtain ⟨s', a'', hg0, _, hs2, hs3⟩ := hpre 0 (Nat.succ_pos i)
            rw [Nat.add_zero, hg] at hg0
            cases hg0
            rcases hFD with h | h
            · exact absurd h hs2
            · exact absurd h hs3
      · simp only [waitEngineActiveGo, hg, if_neg hA, if_neg hFD]
        rw [ih (k + 1)]
        push_neg at hFD
        constructor
        · rintro ⟨j, hj, ⟨a', hact⟩, hpre⟩
          refine ⟨j + 1, by omega, ⟨a', by rw [show k + (j + 1) = k + 1 + j from by omega]; exact hact⟩, ?_⟩
          intro i hi
          cases i with
          | zero =>
            exact ⟨s, a, by rw [Nat.add_zero]; exact hg, hA, hFD.1, hFD.2⟩
          | succ i' =>
            obtain ⟨s', a'', hgi, h1, h2, h3⟩ := hpre i' (by omega)
            exact ⟨s', a'', by rw [show k + (i' + 1) = k + 1 + i' from by omega]; exact hgi, h1, h2, h3⟩
        · rintro ⟨j, hj, ⟨a', hact⟩, hpre⟩
          cases j with
          | zero =>
            rw [Nat.add_zero, hg] at hact
            cases hact
            exact absurd rfl hA
          | succ j' =>
            refine ⟨j', by omega, ⟨a', by rw [show k + 1 + j' = k + (j' + 1) from by omega]; exact hact⟩, ?_⟩
            intro i hi
            obtain ⟨s', a'', hgi, h1, h2, h3⟩ := hpre (i + 1) (by omega)
            exact ⟨s', a'', by rw [show k + 1 + i = k + (i + 1) from by omega]; exact hgi, h1, h2, h3⟩
    | notFound =>
      simp only [waitEngineActiveGo, hg]
      constructor
      · intro h; cases h
      · rintro ⟨j, hj, ⟨a', hact⟩, hpre⟩
        cases j with
        | zero => rw [Nat.add_zero, hg] at hact; cases hact
        | succ i =>
          obtain ⟨s', a'', hg0, _⟩ := hpre 0 (Nat.succ_pos i)
          rw [Nat.add_zero, hg] at hg0
          cases hg0
    | err msg =>
      simp only [waitEngineActiveGo, hg]
      constructor
      · intro h; cases h
      · rintro ⟨j, hj, ⟨a', hact⟩, hpre⟩
        cases j with
        | zero => rw [Nat.add_zero, hg] at hact; cases hact
        | succ i =>
          obtain ⟨s', a'', hg0, _⟩ := hpre 0 (Nat.succ_pos i)
          rw [Nat.add_zero, hg] at hg0
          cases hg0

/-- When every in-budget poll sees a benign status, the engine-active
waiter raises the wall-clock timeout. -/
theorem waitEngineActiveGo_timeout (get : Nat → PEGet) (m : Nat) :
    ∀ fuel k, (∀ j, j < fuel → ∃ s a, get (k + j) = PEGet.found s a ∧
        ¬ s = "ACTIVE" ∧ ¬ s = "FAILED" ∧ ¬ s = "DELETING") →
      waitEngineActiveGo get m fuel k =
        Except.error ("Policy engine did not become active within " ++
          toString m ++ " seconds") := by
  intro fuel
  induction fuel with
  | zero => intro k _; rfl
  | succ n ih =>
    intro k h
    obtain ⟨s, a, hg, hA, hF, hD⟩ := h 0 (Nat.succ_pos n)
    rw [Nat.add_zero] at hg
    simp only [waitEngineActiveGo, hg, if_neg hA,
      if_neg (show ¬ (s = "FAILED" ∨ s = "DELETING") from fun hc => hc.elim hF hD)]
    refine ih (k + 1) ?_
    intro j hj
    obtain ⟨s', a', hg', h1, h2, h3⟩ := h (j + 1) (by omega)
    exact ⟨s', a', by rw [show k + 1 + j = k + (j + 1) from by omega]; exact hg', h1, h2, h3⟩

/-- The engine-deleted waiter succeeds iff some in-budget poll raises
ResourceNotFound after only still-existing responses. -/
theorem waitEngineDeletedGo_ok_iff (get : Nat → PEGet) (m : Nat) :
    ∀ fuel k, (waitEngineDeletedGo get m fuel k = Except.ok () ↔
      ∃ j, j < fuel ∧ get (k + j) = PEGet.notFound ∧
        ∀ i, i < j → ∃ s a, get (k + i) = PEGet.found s a) := by
  intro fuel
  induction fuel with
  | zero =>
    intro k
    simp [waitEngineDeletedGo]
  | succ n ih =>
    intro k
    cases hg : get k with
    | found s a =>
      simp only [waitEngineDeletedGo, hg]
      rw [ih (k + 1)]
      constructor
      · rintro ⟨j, hj, hnf, hpre⟩
        refine ⟨j + 1, by omega, by rw [show k + (j + 1) = k + 1 + j from by omega]; exact hnf, ?_⟩
        intro i hi
        cases i with
        | zero => exact ⟨s, a, by rw [Nat.add_zero]; exact hg⟩
        | succ i' =>
          obtain ⟨s', a', hgi⟩ := hpre i' (by omega)
          exact ⟨s', a', by rw [show k + (i' + 1) = k + 1 + i' from by omega]; exact hgi⟩
      · rintro ⟨j, hj, hnf, hpre⟩
        cases j with
        | zero => rw [Nat.add_zero, hg] at hnf; cases hnf
        | succ j' =>
          refine ⟨j', by omega, by rw [show k + 1 + j' = k + (j' + 1) from by omega]; exact hnf, ?_⟩
          intro i hi
          obtain ⟨s', a', hgi⟩ := hpre (i + 1) (by omega)
          exact ⟨s', a', by rw [show k + 1 + i = k + (i + 1) from by omega]; exact hgi⟩
    | notFound =>
      simp only [waitEngineDeletedGo, hg]
      constructor
      · intro _
        exact ⟨0, Nat.succ_pos n, by rw [Nat.add_zero]; exact hg,
          fun i hi => absurd hi (Nat.not_lt_zero i)⟩
      · intro _; trivial
    | err msg =>
      simp only [waitEngineDeletedGo, hg]
      constructor
      · intro h; cases h
      · rintro ⟨j, hj, hnf, hpre⟩
        cases j with
        | zero => rw [Nat.add_zero, hg] at hnf; cases hnf
        | succ i =>
          obtain ⟨s', a', hg0⟩ := hpre 0 (Nat.succ_pos i)
          rw [Nat.add_zero, hg] at hg0
          cases hg0

/-- When every in-budget poll still finds the engine, the engine-deleted
waiter raises the wall-clock timeout. -/
theorem waitEngineDeletedGo_timeout (get : Nat → PEGet) (m : Nat) :
    ∀ fuel k, (∀ j, j < fuel → ∃ s a, get (k + j) = PEGet.found s a) →
      waitEngineDeletedGo get m fuel k =
        Except.error ("Policy engine was not deleted within " ++
          toString m ++ " seconds") := by
  intro fuel
  induction fuel with
  | zero => intro k _; rfl
  | succ n ih =>
    intro k h
    obtain ⟨s, a, hg⟩ := h 0 (Nat.succ_pos n)
    rw [Nat.add_zero] at hg
    simp only [waitEngineDeletedGo, hg]
    refine ih (k + 1) ?_
    intro j hj
    obtain ⟨s', a', hg'⟩ := h (j + 1) (by omega)
    exact ⟨s', a', by rw [show k + 1 + j = k + (j + 1) from by omega]; exact hg'⟩

end PolicyEngine

/-- C4: at the default `max_wait_time` of 300 seconds every polling loop
observes the wall-clock budget of 30 ten-second polls and terminates:
`wait_for_policy_engine_active` returns exactly when a poll within the
budget sees ACTIVE after only benign statuses, raises at the first
FAILED or DELETING status, and raises the timeout exception when every
in-budget poll stays benign; `wait_for_policy_engine_deleted` returns
exactly when an in-budget poll raises ResourceNotFound and raises the
timeout exception when the engine persists for the whole budget. -/
theorem c4_polling_loops_wall_clock_timeout (get : Nat → PolicyEngine.PEGet) :
    (PolicyEngine.wait_for_policy_engine_active get 300 = Except.ok () ↔
      ∃ j, j < 30 ∧ (∃ a, get j = PolicyEngine.PEGet.found "ACTIVE" a) ∧
        ∀ i, i < j → ∃ s a, get i = PolicyEngine.PEGet.found s a ∧
          ¬ s = "ACTIVE" ∧ ¬ s = "FAILED" ∧ ¬ s = "DELETING") ∧
    (∀ s a, (s = "FAILED" ∨ s = "DELETING") →
      get 0 = PolicyEngine.PEGet.found s a →
      PolicyEngine.wait_for_policy_engine_active get 300 =
        Except.error ("Policy engine creation failed with status: " ++ s)) ∧
    ((∀ j, j < 30 → ∃ s a, get j = PolicyEngine.PEGet.found s a ∧
        ¬ s = "ACTIVE" ∧ ¬ s = "FAILED" ∧ ¬ s = "DELETING") →
      PolicyEngine.wait_for_policy_engine_active get 300 =
        Except.error "Policy engine did not become active within 300 seconds") ∧
    (PolicyEngine.wait_for_policy_engine_deleted get 300 = Except.ok () ↔
      ∃ j, j < 30 ∧ get j = PolicyEngine.PEGet.notFound ∧
        ∀ i, i < j → ∃ s a, get i = PolicyEngine.PEGet.found s a) ∧
    ((∀ j, j < 30 → ∃ s a, get j = PolicyEngine.PEGet.found s a) →
      PolicyEngine.wait_for_policy_engine_deleted get 300 =
        Except.error "Policy engine was not deleted within 300 seconds") := by
  have h30 : ((300 : Nat) + 9) / 10 = 30 := rfl
  refine ⟨?_, ?_, ?_, ?_, ?_⟩
  · rw [PolicyEngine.wait_for_policy_engine_active, h30,
      PolicyEngine.waitEngineActiveGo_ok_iff get 300 30 0]
    simp only [Nat.zero_add]
  · intro s a hFD hg
    rw [PolicyEngine.wait_for_policy_engine_active, h30]
    have hA : ¬ s = "ACTIVE" := by rcases hFD with h | h <;> subst h <;> decide
    simp only [PolicyEngine.waitEngineActiveGo, hg, if_neg hA, if_pos hFD]
  · intro h
    rw [PolicyEngine.wait_for_policy_engine_active, h30]
    have := PolicyEngine.waitEngineActiveGo_timeout get 300 30 0
      (fun j hj => by simpa using h j hj)
    simpa using this
  · rw [PolicyEngine.wait_for_policy_engine_deleted, h30,
      PolicyEngine.waitEngineDeletedGo_ok_iff get 300 30 0]
    simp only [Nat.zero_add]
  · intro h
    rw [PolicyEngine.wait_for_policy_engine_deleted, h30]
    have := PolicyEngine.waitEngineDeletedGo_timeout get 300 30 0
      (fun j hj => by simpa using h j hj)
    simpa using this

/-- Witness for C4: an engine stuck in CREATING times the active waiter
out after the 300-second budget, and an engine stuck in DELETING times
the deleted waiter out. -/
theorem c4_polling_loops_wall_clock_timeout_witness :
    PolicyEngine.wait_for_policy_engine_active
        (fun _ => PolicyEngine.PEGet.found "CREATING" "arn") 300 =
      Except.error "Policy engine did not become active within 300 seconds" ∧
    PolicyEngine.wait_for_policy_engine_deleted
        (fun _ => PolicyEngine.PEGet.found "DELETING" "arn") 300 =
      Except.error "Policy engine was not deleted within 300 seconds" :=
  ⟨(c4_polling_loops_wall_clock_timeout
      (fun _ => PolicyEngine.PEGet.found "CREATING" "arn")).2.2.1
      (fun _ _ => ⟨"CREATING", "arn", rfl, by decide, by decide, by decide⟩),
   (c4_polling_loops_wall_clock_timeout
      (fun _ => PolicyEngine.PEGet.found "DELETING" "arn")).2.2.2.2
      (fun _ _ => ⟨"DELETING", "arn", rfl⟩)⟩
